import Mathlib

/-!
A shallow embedding of the content-generation pipeline of
`src/pipeline.py`, together with the prompt data of `src/prompts.py`
that it consumes, and proofs about it.

Modelling conventions:
* The two provider backends used inside `_call_llm` are modelled by an
  `Oracle`, a deterministic map from the argument tuple of one call to
  the text the backend returns or the provider exception one attempt of
  the call raises.
* Temperatures are floats in the source; they are carried only as opaque
  configuration, so they are stored in hundredths (`0.4` is `40`).
* The persistent history file `speech_history.json` is modelled by the
  parsed list of openings it holds (`_load_history`'s result); the
  degenerate file states matter only to `_load_history`, which is
  modelled separately over a `HistoryFile` state.
* The thread pool of `run_parallel_drafts` is modelled by an explicit
  completion order of the submitted futures.
* Python exceptions short-circuit through `Except`.
-/

namespace DailySpeech

/-! ### Python string and list primitives -/

/-- The ASCII whitespace characters of Python's `str.strip` and of the
regex class `\s`. -/
def isPySpace (c : Char) : Bool :=
  c = ' ' || c = '\t' || c = '\n' || c = '\r' || c = '\x0b' || c = '\x0c'

/-- Python slicing `s[:n]`: the first `n` characters of a string. -/
def pyTake (s : String) (n : Nat) : String :=
  String.mk (s.toList.take n)

/-- Python `str.strip()` (ASCII whitespace). -/
def pyStrip (s : String) : String :=
  String.mk (((s.toList.dropWhile isPySpace).reverse.dropWhile isPySpace).reverse)

/-- Python slicing `l[-n:]`: the last `n` elements of a list (the whole
list when it is shorter than `n`). -/
def lastN {α : Type} (n : Nat) (l : List α) : List α :=
  l.drop (l.length - n)

/-! ### Episode length presets (prompts.py `EPISODE_LENGTHS`) -/

/-- The four keys of `EPISODE_LENGTHS`: `"5 min"`, `"10 min"`, `"15 min"`,
`"20 min"`. -/
inductive LengthKey
  | min5
  | min10
  | min15
  | min20
  deriving DecidableEq

/-- `EPISODE_LENGTHS[key]["minutes"]`. -/
def lengthMinutes : LengthKey → Nat
  | .min5 => 5
  | .min10 => 10
  | .min15 => 15
  | .min20 => 20

/-- `EPISODE_LENGTHS[key]["words_min"]`. -/
def lengthWordsMin : LengthKey → Nat
  | .min5 => 750
  | .min10 => 1500
  | .min15 => 2250
  | .min20 => 3000

/-- `EPISODE_LENGTHS[key]["words_max"]`. -/
def lengthWordsMax : LengthKey → Nat
  | .min5 => 900
  | .min10 => 1800
  | .min15 => 2700
  | .min20 => 3600

/-! ### Prompt templates (prompts.py), with `.format` substitution applied -/
/-- prompts.py get_research_stage: the "system" string. -/
def research_system : String :=
  "You are a meticulous research assistant with expertise across all academic disciplines. You produce structured research briefs that give a writer everything they need to create authoritative, specific, and deeply grounded documentary content."

/-- prompts.py get_research_stage: the "user_template" string with the length preset interpolations evaluated and the .format placeholders substituted. -/
def research_user_template (lk : LengthKey) (topic : String) : String :=
  "I need to write a " ++ toString (lengthMinutes lk) ++ "-minute documentary-style audio episode on the topic: '" ++ topic ++
    "'\n\nPlease produce a comprehensive research brief covering:\n\n1. **Key Historical Milestones**: The 5-10 most important moments, discoveries, or turning points in this field. Include dates, names, and what specifically happened.\n\n2. **Foundational Theories & Frameworks**: The major theoretical models that ground the field. Who developed them, when, and what do they explain?\n\n3. **Landmark Studies & Experiments**: Specific experiments or studies that changed understanding. Include methodology, key findings, and sample sizes where relevant.\n\n4. **Surprising Statistics & Counterintuitive Facts**: Data points that would shock or intrigue a general audience.\n\n5. **Key Figures & Their Contributions**: The people behind the breakthroughs — not just names, but what they specifically did and said.\n\n6. **Current Debates & Open Questions**: Where does the field disagree? What remains unresolved?\n\n7. " ++
    "**Recent Advances (last 5 years)**: The cutting edge — what's new and exciting?\n\n8. **Cross-Disciplinary Connections**: How does this topic connect to other fields in unexpected ways?\n\n9. **Memorable Quotes**: Powerful quotes from practitioners or thinkers in the field.\n\n10. **Common Misconceptions**: What does the public get wrong about this topic?\n\nBe specific. Use names, dates, numbers. No vague generalities. Format as organized bullet points under each heading."

/-- prompts.py get_research_stage: the "description" string. -/
def research_description : String :=
  "Collects key facts, studies, figures, debates, and historical milestones on the topic"

/-- prompts.py get_draft_stage: the "system" string. -/
def draft_system : String :=
  "You are a world-class documentary scriptwriter for audio content. Your goal is to make advanced knowledge accessible, memorable, and intellectually stimulating. Write like the narrator of the best BBC or PBS documentaries - authoritative yet warm, making complex ideas feel fascinating and approachable. Your scripts make knowledge stick."

/-- prompts.py get_draft_stage: the "user_template" string with the length preset interpolations evaluated and the .format placeholders substituted. -/
def draft_user_template (lk : LengthKey) (topic : String) (research : String) : String :=
  "Topic: '" ++ topic ++ "'\n\nResearch brief to draw from (use specific details from this):\n" ++ research ++ "\n\n---\n\nObjective:\n\nCreate an eloquent, intellectually sophisticated, and deeply engaging documentary script on the topic of '" ++ topic ++ "'. The outcome should be varied and different from any other scripts we've made together. Don't use obvious patterns that an LLM would use, but keep it as if an analysis of the text would confirm it as human written. Use different vocabulary than previous scripts, nouns and verb choices, etc. The script should not only inform but also captivate, inspire, and challenge listeners, leaving them with lasting intellectual growth. It should feel like the best documentary narration - authoritative yet inviting, making the listener feel they're discovering profound truths. The goal is to take listeners on a " ++ toString (lengthMinutes lk) ++
    "-minute journey of discovery, guided by profound insights and surprising revelations that stick with them. Do not speak with fluff; it should use rhetoric with substance, and details about the central chain of insights and studies or breakthrough observations, and the way practitioners think in the field. Do not use headers. I want you give it all to me in a form that can be read aloud immediately. It should sound like a world-class documentary narrator sharing fascinating knowledge in an intimate, engaging way.\n\nInstructions:\n\nIntroduction: Ignite Curiosity\n\nCompelling Hook: Begin with one of the following techniques to immediately draw viewers in:\nProvocative Quote: Present a powerful, relevant quote tied to a modern issue or perspective, making it feel both timeless and current.\nExistential Question: Pose a deeply thought-provoking question that challenges viewers' core beliefs and pr" ++
    "ovokes introspection.\nCounterintuitive Statistic: Share a surprising, lesser-known fact or statistic that subverts expectations and piques curiosity.\nPersonal Narrative: Offer a brief but compelling story that relates the topic to the viewer's own life or experiences.\nViewer Connection:\nAddress the audience directly, acknowledging their curiosity and existing knowledge.\nUse inclusive language like \"Let's delve into...\" to create a sense of camaraderie.\nHint at deeper insights to come, promising a transformative experience.\nRoadmap with Intrigue:\nProvide a brief, exciting overview of what the episode will cover without revealing all the details.\nForeshadow major revelations to build anticipation.\nExample: \"By the end of this episode, you'll perceive " ++ topic ++ " through an entirely new perspective.\"\nChallenging Popular Perceptions: Deepen the Inquiry\n\nDeconstructing Common Narratives:\nIntroduce common beliefs or assumptions about " ++ topic ++
    ", acknowledging their historical or cultural roots.\nRespectfully and rigorously dismantle misconceptions, presenting clear, evidence-based clarifications.\nEmphasize that revising one's understanding is a sign of intellectual growth.\nRhetorical Engagement:\nPose open-ended questions that encourage viewers to reflect critically.\nUse strategic pauses to give viewers time to ponder before unveiling deeper insights.\nExample: \"Why do we hold onto the belief that [common misconception]? Let's examine the evidence.\"\nDeep Exploration: Balance Rigor and Accessibility\n\nThematic Coherence:\nEstablish a central thesis or guiding question that anchors the exploration.\nRevisit this theme throughout to maintain focus and build intellectual momentum.\nSophisticated Yet Clear Communication:\nBreak down complex concepts using relatable metaphors and analogies.\nIntroduce technical terms with clear explanations " ++
    "and context.\nUse vivid language to help viewers visualize abstract ideas.\nInterdisciplinary Synthesis:\nHighlight connections between '" ++ topic ++ "' and other fields or areas of life.\nShow unexpected links between seemingly disparate disciplines.\nExample: \"This concept in '" ++ topic ++
    "' mirrors patterns we see in economics and even music.\"\nCutting-Edge & Open Questions:\nPresent the latest research and developments with enthusiasm.\nFrame unanswered questions as opportunities for further exploration.\nEncourage viewers to think critically about ongoing debates.\nAstounding Insights: Inspire Awe\n\nRevelations with Impact:\nSpeak about the historical origins and move forward with the intellectual or professional insights. Gradually build up to key insights, creating a sense of discovery.\nReveal impactful information strategically for maximum effect.\nHumanizing Complex Ideas:\nShare stories about the people behind major breakthroughs.\nConnect historical journeys to the viewer's own learning process.\nVivid Conceptualization:\nUse descriptive, sensory language to bring abstract concepts to life.\nEmploy thought experiments to help viewers \"experience\" complex ideas.\nDevelop metapho" ++
    "rs that evolve and deepen as the video progresses.\nSustained Engagement: Craft a Captivating Journey\n\nNarrative Arc:\nStructure the content like a story, with each revelation leading to new questions.\nCreate intellectual tension and release to keep viewers hooked.\nUse cliffhangers to maintain interest.\nActive Participation:\nPose challenges or thought experiments directly to the viewer.\nEncourage them to apply new knowledge to real-world situations.\nInclude moments for self-reflection.\nExample: \"How might this new understanding change your approach to [everyday activity]?\"\nEmotional & Intellectual Resonance:\nTap into the awe-inspiring nature of the topic.\nAcknowledge the emotional impact of paradigm shifts.\nCreate moments of intellectual satisfaction as complex ideas come together.\nConclusion: Leave a Lasting Impression\n\nSynthesis of Ideas:\nBriefly recap the main points and tie them togeth" ++
    "er thoughtfully.\nRevisit the opening theme, highlighting the intellectual journey undertaken.\nThe Road Ahead:\nPose a final question that encourages further thought.\nSuggest potential future developments or areas for exploration.\nCommunity Engagement:\nInvite viewers to discuss the topic in the comments.\nSuggest a specific question or topic for them to consider.\nInspirational Close:\nConnect the intellectual journey to personal growth and societal progress.\nEnd with a call to action, encouraging continued curiosity and learning.\nAdditional Techniques for Maximum Impact\n\nCinematic Language:\nUse visual descriptors to create vivid mental scenes.\nCraft metaphors and analogies that evolve as the narrative progresses.\nExample: \"Imagine zooming into the very fabric of reality...\"\nVaried Cognitive Pacing:\nAlternate between fast-paced information and slower, reflective moments.\nUse linguistic device" ++
    "s like alliteration or repetition for emphasis.\nVary sentence length to maintain a dynamic rhythm.\nIntellectual Plot Twists:\nIntroduce unexpected perspectives or contradictions.\nCreate cognitive dissonance, then resolve it for intellectual satisfaction.\nFuturistic Speculation:\nEncourage viewers to imagine potential future scenarios related to " ++ topic ++ ".\nFrame these speculations as part of an ongoing, exciting intellectual journey.\nMeta-Commentary on Learning:\nReflect on the learning process itself.\nValidate the challenge of grappling with complex ideas, fostering a growth mindset.\nGuidelines for Length and Timing\n\nTarget Duration:\nAim for a script that fits within a " ++ toString (lengthMinutes lk) ++ "-minute video format (approximately " ++ toString (lengthWordsMin lk) ++ " to " ++ toString (lengthWordsMax lk) ++
    " words).\nAdjust the depth and detail to suit this timeframe without sacrificing clarity or engagement.\nConcise Thoroughness:\nEnsure each section is thorough yet concise.\nMaintain a logical progression without unnecessary digressions.\nFinal Notes:\n\nTone and Style:\nMaintain an authoritative yet inviting tone.\nBalance intellectual rigor with emotional resonance.\nAvoid jargon unless it's clearly explained and adds value.\nAudience Engagement:\nConnect with the audience throughout.\nEncourage active thinking and personal connection to the material.\nFoster a sense of shared exploration and discovery. Remember to sound like an engaging documentary narrator - authoritative but warm, making the listener feel they're learning something profound. If you think your output is good, try to make it even more dense with the field's insights, and advances in concepts, and connect the dots fluidly, ensuring " ++ "knowledge sticks with the listener, and only then give it to me."

/-- prompts.py get_draft_stage: the "description" string. -/
def draft_description (lk : LengthKey) : String :=
  "Creates the foundational episode script (~" ++ toString (lengthWordsMin lk) ++ "-" ++ toString (lengthWordsMax lk) ++ " words)"

/-- prompts.py JUDGE_PROMPT["system"]. -/
def judge_system : String :=
  "You are a world-class editor and literary critic. You evaluate writing with ruthless precision, scoring on originality, intellectual depth, emotional resonance, specificity of evidence, and how human/natural the voice sounds. You do NOT write — you only judge."

/-- prompts.py JUDGE_PROMPT["user_template_2"] with .format placeholders substituted. -/
def judge_user_template_2 (topic : String) (draft_a : String) (draft_b : String) : String :=
  "Topic: '" ++ topic ++ "'\n\nBelow are two draft scripts on the same topic. Evaluate each on these criteria (1-10 scale):\n1. **Originality** — Does it avoid cliché LLM patterns? Does it feel fresh?\n2. **Intellectual Depth** — Does it use specific studies, names, dates, frameworks?\n3. **Emotional Resonance** — Does it create genuine feeling, not manufactured sentiment?\n4. **Voice & Authenticity** — Does it sound like a real expert talking, not a polished essay?\n5. **Structure & Flow** — Does the narrative build compellingly?\n\n---\n\nDRAFT A:\n" ++ draft_a ++ "\n\n---\n\nDRAFT B:\n" ++ draft_b ++
    "\n\n---\n\nScore each draft on all 5 criteria. Then declare WINNER: A or B.\nFinally, list 2-3 specific strengths from the losing draft that should be incorporated into the winner.\n\nFormat your response EXACTLY like this:\nSCORES:\nDraft A: Originality X, Depth X, Emotion X, Voice X, Structure X = Total XX\nDraft B: Originality X, Depth X, Emotion X, Voice X, Structure X = Total XX\n\nWINNER: [A/B]\n\nBORROW FROM LOSER:\n- [specific element to incorporate]\n- [specific element to incorporate]"

/-- prompts.py JUDGE_PROMPT["user_template"] (three drafts) with .format placeholders substituted. -/
def judge_user_template_3 (topic : String) (draft_a : String) (draft_b : String) (draft_c : String) : String :=
  "Topic: '" ++ topic ++ "'\n\nBelow are three draft scripts on the same topic. Evaluate each on these criteria (1-10 scale):\n1. **Originality** — Does it avoid cliché LLM patterns? Does it feel fresh?\n2. **Intellectual Depth** — Does it use specific studies, names, dates, frameworks?\n3. **Emotional Resonance** — Does it create genuine feeling, not manufactured sentiment?\n4. **Voice & Authenticity** — Does it sound like a real expert talking, not a polished essay?\n5. **Structure & Flow** — Does the narrative build compellingly?\n\n---\n\nDRAFT A:\n" ++ draft_a ++ "\n\n---\n\nDRAFT B:\n" ++ draft_b ++ "\n\n---\n\nDRAFT C:\n" ++ draft_c ++
    "\n\n---\n\nScore each draft on all 5 criteria. Then declare WINNER: A, B, or C.\nFinally, list 3-5 specific strengths from the losing drafts that should be incorporated into the winner.\n\nFormat your response EXACTLY like this:\nSCORES:\nDraft A: Originality X, Depth X, Emotion X, Voice X, Structure X = Total XX\nDraft B: Originality X, Depth X, Emotion X, Voice X, Structure X = Total XX\nDraft C: Originality X, Depth X, Emotion X, Voice X, Structure X = Total XX\n\nWINNER: [A/B/C]\n\nBORROW FROM LOSERS:\n- [specific element to incorporate]\n- [specific element to incorporate]\n- [specific element to incorporate]"

/-- prompts.py CRITIQUE_TEMPLATE["system"]. -/
def critique_system : String :=
  "You are a brutally honest editorial critic. You identify weaknesses, missed opportunities, and areas that feel artificial or underdeveloped. You are specific — you quote exact phrases that need work and explain exactly why."

/-- prompts.py CRITIQUE_TEMPLATE["user_template"] with .format placeholders substituted. -/
def critique_user_template (topic : String) (completed_stage : String) (next_stage : String) (text : String) : String :=
  "Topic: '" ++ topic ++ "'\n\nThe following script has just been through '" ++ completed_stage ++ "' and is about to enter '" ++ next_stage ++ "'.\n\nScript:\n" ++ text ++ "\n\nProvide a focused critique (max 300 words) covering:\n1. What are the 3 weakest passages? Quote them exactly.\n2. Where does it still sound like an LLM wrote it?\n3. What specific facts, studies, or details are missing or vague?\n4. What emotional moments fall flat?\n5. One structural suggestion.\n\nBe blunt. Be specific. No praise — only actionable feedback."

/-- prompts.py ENHANCEMENT_STAGES[0]["system"]. -/
def enhancement_system_2 : String :=
  "You are a master literary artist, rhetoric specialist, academic synthesizer, and intellectual enhancer. You elevate writing by weaving in rhetorical devices, vivid imagery, theoretical frameworks, key discoveries, and profound depth while preserving every piece of existing content."

/-- prompts.py ENHANCEMENT_STAGES[0]["user_template"] with .format placeholders substituted. -/
def enhancement_user_template_2 (topic : String) (research : String) (critique : String) (previous_output : String) : String :=
  "Topic: '" ++ topic ++ "'\nResearch brief for reference:\n" ++ research ++ "\n\nCritique from editorial review (address these issues):\n" ++ critique ++ "\n\n---\n\nWithout losing any content, enhance the following script in these ways:\n\n" ++ previous_output ++
    "\n\n**INTELLECTUAL DEPTH:**\n- Add hyper-expert insights and historical elements describing accumulated knowledge\n- Weave in theoretical frameworks, experimental breakthroughs, and key discoveries\n- Include specific experiments/studies with key findings and implications\n- Highlight academic debates and controversies that defined the field's evolution\n- Balance historical context with cutting-edge advancements and open questions\n\n**ARTISTIC ENHANCEMENT:**\n- Vary sentence length: short for emphasis, longer for complex ideas\n- Use strong, specific verbs and parallel structure\n- Include sensory details and concrete imagery\n- Avoid clichés; craft original phrasing\n- Create balance and contrast by juxtaposing opposing ideas\n- Show, don't tell — use actions and imagery to convey meaning\n\n**RHETORICAL DEVICES** (use tastefully at natural moments):\nAntithesis, Tricolon, Anaphora, Chiasmus, Rhetorica" ++
    "l Questions, Metaphor, Alliteration, Paradox, Epistrophe, Hyperbole, Litotes, Personification.\n\nThe writing should be deep, profound, and take the listener on a transformative journey. Ensure all facts remain grounded in the research brief."

/-- prompts.py ENHANCEMENT_STAGES[1]["system"]. -/
def enhancement_system_3 : String :=
  "You are an expert at detecting and eliminating AI-generated writing patterns. You have an uncanny ability to spot the telltale signs of LLM output and replace them with genuinely human, idiosyncratic expression. You make writing sound like it came from a specific, opinionated person — not a helpful assistant."

/-- prompts.py ENHANCEMENT_STAGES[1]["user_template"] with .format placeholders substituted. -/
def enhancement_user_template_3 (topic : String) (research : String) (critique : String) (previous_output : String) : String :=
  "Topic: '" ++ topic ++ "'\nResearch brief:\n" ++ research ++ "\n\nCritique:\n" ++ critique ++ "\n\n---\n\nThe following script needs to be DE-ROBOTIZED. Find and fix ALL instances of:\n\n" ++ previous_output ++
    "\n\n**LLM PATTERNS TO ELIMINATE:**\n- Generic openings: 'In today's world...', 'Have you ever wondered...', 'Let's dive in...'\n- Overused intensifiers: 'crucial', 'vital', 'essential', 'fascinating', 'remarkable'\n- Hedging phrases: 'It's worth noting', 'Interestingly enough', 'One might argue'\n- Smooth transitions: 'Moreover', 'Furthermore', 'Additionally', 'That being said'\n- Empty validation: 'This is important because...', 'What makes this significant is...'\n- Perfect parallel structure everywhere (real humans are messier)\n- Overly balanced 'on one hand / on the other hand' constructions\n- Concluding with neat summaries or calls to action\n\n**INJECT AUTHENTIC VOICE:**\n- Add unexpected word choices that a specific person might use\n- Include mild opinions, preferences, or gentle skepticism\n- Let some sentences trail off or pivot mid-thought\n- Use contractions naturally ('it's', 'don't', 'ca" ++
    "n't')\n- Add the occasional 'actually', 'honestly', 'look', 'here's the thing'\n- Reference personal experience or curiosity ('I always found it strange that...')\n- Be willing to say 'I don't know' or 'this is still debated'\n\nThe result should pass the 'would a real person say this?' test. Every sentence should sound like it came from someone with actual opinions and personality."

/-- prompts.py ENHANCEMENT_STAGES[2]["system"]. -/
def enhancement_system_4 : String :=
  "You are a voice-over director and speech coach who optimizes written text for audio delivery. You understand that spoken prose is fundamentally different from written prose — it must flow naturally when read aloud, with room to breathe, natural emphasis points, and no tongue-twisters. You make text a pleasure to listen to."

/-- prompts.py ENHANCEMENT_STAGES[2]["user_template"] with .format placeholders substituted. -/
def enhancement_user_template_4 (topic : String) (research : String) (critique : String) (previous_output : String) : String :=
  "Topic: '" ++ topic ++ "'\nResearch brief:\n" ++ research ++ "\n\nCritique:\n" ++ critique ++ "\n\n---\n\nOptimize this script specifically for AUDIO DELIVERY:\n\n" ++ previous_output ++
    "\n\n**BREATH & RHYTHM:**\n- Break sentences that are too long for a single breath (max ~25 words)\n- Add natural pause points with punctuation (commas, em-dashes, periods)\n- Vary sentence length to create rhythm: short punchy lines, then longer flowing ones\n- Ensure complex ideas have breathing room — don't stack dense concepts\n\n**MOUTH-FEEL & FLOW:**\n- Eliminate tongue-twisters and awkward consonant clusters\n- Avoid words that are hard to pronounce or sound similar (homophones in sequence)\n- Check for unintentional rhymes or repetitive sounds\n- Make sure emphasis falls on important words, not throwaway ones\n\n**LISTENER ENGAGEMENT:**\n- Add micro-hooks every 30-60 seconds (questions, surprising facts, 'here's the thing')\n- Create 'wait for it' moments where you build anticipation before a reveal\n- Use direct address ('you', 'your', 'imagine') to maintain connection\n- Ensure the opening 30 sec" ++
    "onds are absolutely gripping\n\n**AUDIO-SPECIFIC:**\n- Numbers should be easy to say and hear (not '47.3%' but 'nearly half')\n- Spell out abbreviations that sound awkward when spoken\n- Avoid parenthetical asides that work in writing but confuse listeners\n\nRead the entire script aloud in your mind. Fix anything that doesn't flow naturally."

/-- prompts.py ENHANCEMENT_STAGES[3]["system"]. -/
def enhancement_system_5 : String :=
  "You are a meticulous final-pass editor. You go line by line with surgical precision, ensuring every single word earns its place. You cut ruthlessly, tighten relentlessly, and polish until the text gleams. You are the last line of defense before publication."

/-- prompts.py ENHANCEMENT_STAGES[3]["user_template"] with .format placeholders substituted. -/
def enhancement_user_template_5 (topic : String) (research : String) (critique : String) (previous_output : String) : String :=
  "Topic: '" ++ topic ++ "'\nResearch brief (verify facts):\n" ++ research ++ "\n\nCritique (final check):\n" ++ critique ++ "\n\n---\n\nFINAL PASS. Go line by line through this script:\n\n" ++ previous_output ++
    "\n\n**TIGHTEN:**\n- Cut any word that doesn't add meaning\n- Replace weak verbs with strong, specific ones\n- Eliminate redundancy ('absolutely essential' → 'essential')\n- Remove filler ('really', 'very', 'quite', 'just', 'actually' unless purposeful)\n\n**VERIFY:**\n- Every fact, name, date, and number must be accurate per the research brief\n- Remove or qualify anything that sounds made up or too good to be true\n- Ensure claims are appropriately hedged ('often' vs 'always')\n\n**FINAL CHECK:**\n- Opening must hook immediately — no throat-clearing\n- Ending must resonate — no weak fade-outs or cliché conclusions\n- Overall arc should feel complete and satisfying\n- The piece should leave the listener changed in some small way\n\nDo NOT add content. Only refine what exists. Make every word count."

/-- prompts.py DIFFERENTIATION_CONTEXT with the .format placeholder substituted. -/
def differentiation_context_fmt (previous_openings : String) : String :=
  "IMPORTANT: Here are opening paragraphs from previous episodes we've generated. Your script MUST use a completely different opening technique, different vocabulary patterns, and a different structural approach than these:\n\n" ++ previous_openings ++ "\n\n---\n\n"


/-! ### Stage configuration (prompts.py) -/

/-- The static fields of a stage dict of prompts.py; the user template is
modelled separately as a function. -/
structure StageCfg where
  name : String
  description : String
  system : String
  temperature : Nat
  provider : String
  model_override : Option String
  deriving DecidableEq

/-- prompts.py `get_research_stage` (static fields; the user template is
`research_user_template`). -/
def get_research_stage (_lk : LengthKey) : StageCfg :=
  { name := "Stage 0: Research Gathering"
    description := research_description
    system := research_system
    temperature := 40
    provider := "anthropic"
    model_override := some "claude-sonnet-4-20250514" }

/-- prompts.py `get_draft_stage` (static fields; the user template is
`draft_user_template`). -/
def get_draft_stage (lk : LengthKey) : StageCfg :=
  { name := "Stage 1: Initial Script"
    description := draft_description lk
    system := draft_system
    temperature := 90
    provider := "anthropic"
    model_override := some "claude-sonnet-4-20250514" }

/-- One entry of prompts.py `DRAFT_VARIANTS`. -/
structure DraftVariant where
  label : String
  provider : String
  model_override : String
  temperature : Nat
  deriving DecidableEq

/-- prompts.py `DRAFT_VARIANTS[0]`. -/
def variantA : DraftVariant :=
  { label := "Draft A (Claude Sonnet, balanced)"
    provider := "anthropic"
    model_override := "claude-sonnet-4-20250514"
    temperature := 80 }

/-- prompts.py `DRAFT_VARIANTS[1]`. -/
def variantB : DraftVariant :=
  { label := "Draft B (GPT-4o, different perspective)"
    provider := "openai"
    model_override := "gpt-4o-2024-11-20"
    temperature := 85 }

/-- prompts.py `DRAFT_VARIANTS`: the two configured fan-out variants. -/
def DRAFT_VARIANTS : List DraftVariant :=
  [variantA, variantB]

/-- One entry of prompts.py `ENHANCEMENT_STAGES`; `user_template` takes
topic, research, critique and previous_output. -/
structure EnhancementStage where
  name : String
  description : String
  system : String
  user_template : String → String → String → String → String
  temperature : Nat
  provider : String
  model_override : Option String

/-- prompts.py `ENHANCEMENT_STAGES[0]`. -/
def stage2 : EnhancementStage :=
  { name := "Stage 2: Deep Enhancement"
    description := "Combines artistic enhancement with academic depth and rhetorical mastery"
    system := enhancement_system_2
    user_template := enhancement_user_template_2
    temperature := 70
    provider := "anthropic"
    model_override := some "claude-sonnet-4-20250514" }

/-- prompts.py `ENHANCEMENT_STAGES[1]`. -/
def stage3 : EnhancementStage :=
  { name := "Stage 3: De-AI & Voice Authenticity"
    description := "Strips LLM patterns and injects genuine, idiosyncratic voice"
    system := enhancement_system_3
    user_template := enhancement_user_template_3
    temperature := 80
    provider := "anthropic"
    model_override := some "claude-sonnet-4-20250514" }

/-- prompts.py `ENHANCEMENT_STAGES[2]`. -/
def stage4 : EnhancementStage :=
  { name := "Stage 4: Oral Delivery Optimization"
    description := "Optimizes specifically for spoken delivery - breath, rhythm, and mouth-feel"
    system := enhancement_system_4
    user_template := enhancement_user_template_4
    temperature := 50
    provider := "anthropic"
    model_override := some "claude-sonnet-4-20250514" }

/-- prompts.py `ENHANCEMENT_STAGES[3]`. -/
def stage5 : EnhancementStage :=
  { name := "Stage 5: Final Polish"
    description := "Final line-by-line refinement ensuring every word earns its place"
    system := enhancement_system_5
    user_template := enhancement_user_template_5
    temperature := 30
    provider := "anthropic"
    model_override := some "claude-sonnet-4-20250514" }

/-- prompts.py `ENHANCEMENT_STAGES`: the four critique-then-enhance
stages. -/
def ENHANCEMENT_STAGES : List EnhancementStage :=
  [stage2, stage3, stage4, stage5]

/-! ### The generation client (pipeline.py `_call_llm` / `_call_llm_safe`) -/

/-- The provider exceptions caught by `_call_llm_safe`: the four
`anthropic` failure kinds and the four `openai` failure kinds. -/
inductive LLMException
  | anthropicRateLimit
  | anthropicAPIConnection
  | anthropicAuthentication
  | anthropicAPIError (message : String)
  | openaiRateLimit
  | openaiAPIConnection
  | openaiAuthentication
  | openaiAPIError (message : String)
  deriving DecidableEq

/-- The Python exceptions that can escape the pipeline functions. -/
inductive PyError
  | runtimeError (message : String)
  | indexError
  | typeError
  | attributeError
  deriving DecidableEq

/-- The message of the `RuntimeError` that `_call_llm_safe` raises for
each provider exception. -/
def errMessage : LLMException → String
  | .anthropicRateLimit => "Rate limited by Anthropic. Wait a moment and retry."
  | .anthropicAPIConnection => "Cannot reach Anthropic API. Check your network."
  | .anthropicAuthentication => "Invalid Anthropic API key. Check your .env file."
  | .anthropicAPIError m => "Anthropic API error: " ++ m
  | .openaiRateLimit => "Rate limited by OpenAI. Wait a moment and retry."
  | .openaiAPIConnection => "Cannot reach OpenAI API. Check your network."
  | .openaiAuthentication => "Invalid OpenAI API key. Check your .env file."
  | .openaiAPIError m => "OpenAI API error: " ++ m

/-- The argument tuple of one `_call_llm` invocation. -/
structure CallRec where
  provider : String
  system : String
  user_content : String
  temperature : Nat
  model_override : Option String
  deriving DecidableEq

/-- A deterministic double of the provider backends behind `_call_llm`:
what one attempt of the underlying API call yields for a given argument
tuple. -/
abbrev Oracle := CallRec → Except LLMException String

/-- pipeline.py `_call_llm_safe`: a single attempt of `_call_llm` (the
`try` body contains one call and no retry loop), with every provider
exception translated to a `RuntimeError` carrying `errMessage`. The
second component records the attempts made. -/
def call_llm_safe (oracle : Oracle) (c : CallRec) :
    Except PyError String × List CallRec :=
  match oracle c with
  | .ok text => (.ok text, [c])
  | .error e => (.error (.runtimeError (errMessage e)), [c])

/-- A run in which no generation call fails: the backend double answers
every call with `f`'s text. -/
def okClient (f : CallRec → String) : Oracle :=
  fun c => .ok (f c)

/-! ### Differentiation memory (pipeline.py `_load_history` / `_save_opening`) -/

/-- A Python JSON value, the result of `json.loads`. -/
inductive PyJson
  | null
  | bool (b : Bool)
  | num (n : Int)
  | str (s : String)
  | arr (items : List PyJson)
  | obj (fields : List (String × PyJson))

/-- Python `dict.get(key, default)` over the ordered field list of a JSON
object. -/
def pyDictGetD (fields : List (String × PyJson)) (key : String)
    (default : PyJson) : PyJson :=
  match fields with
  | [] => default
  | (k, v) :: rest => if k = key then v else pyDictGetD rest key default

/-- The state of `speech_history.json` as `_load_history` can find it:
missing, present but rejected by `json.loads`, or parsed to a JSON
value. -/
inductive HistoryFile
  | absent
  | malformed
  | parsed (v : PyJson)

/-- pipeline.py `_load_history`: `data.get("openings", [])` guarded by
`except (json.JSONDecodeError, KeyError)`. A missing file or a
`json.JSONDecodeError` yields `[]`; calling `.get` on a parsed non-dict
value raises `AttributeError`, which the handler does not catch. -/
def load_history : HistoryFile → Except PyError PyJson
  | .absent => .ok (.arr [])
  | .malformed => .ok (.arr [])
  | .parsed (.obj fields) => .ok (pyDictGetD fields "openings" (.arr []))
  | .parsed (.null) => .error .attributeError
  | .parsed (.bool _) => .error .attributeError
  | .parsed (.num _) => .error .attributeError
  | .parsed (.str _) => .error .attributeError
  | .parsed (.arr _) => .error .attributeError

/-- The opening excerpt `_save_opening` stores: `text[:300].strip()`. -/
def openingOf (text : String) : String :=
  pyStrip (pyTake text 300)

/-- pipeline.py `_save_opening`, on the parsed openings of the history
file: append the opening and keep the last 20 (`openings[-20:]`). -/
def save_opening (text : String) (openings : List String) : List String :=
  lastN 20 (openings ++ [openingOf text])

/-! ### Stage 0: research (pipeline.py `run_research`) -/

/-- The `_call_llm_safe` argument tuple of `run_research`. -/
def researchCall (lk : LengthKey) (topic : String) : CallRec :=
  { provider := (get_research_stage lk).provider
    system := (get_research_stage lk).system
    user_content := research_user_template lk topic
    temperature := (get_research_stage lk).temperature
    model_override := (get_research_stage lk).model_override }

/-- pipeline.py `run_research`. -/
def run_research (oracle : Oracle) (lk : LengthKey) (topic : String) :
    Except PyError String × List CallRec :=
  call_llm_safe oracle (researchCall lk topic)

/-! ### Stage 1: parallel drafts (pipeline.py `run_parallel_drafts`) -/

/-- One `{"label": ..., "text": ...}` result dict of the draft stage. -/
structure DraftResult where
  label : String
  text : String
  deriving DecidableEq

/-- The differentiation prefix of `run_parallel_drafts`: empty when there
is no history, otherwise `DIFFERENTIATION_CONTEXT` rendered from the last
five stored openings joined by `"\n---\n"`. -/
def diffContext (openings : List String) : String :=
  if openings = [] then ""
  else differentiation_context_fmt (String.intercalate "\n---\n" (lastN 5 openings))

/-- The user content shared by every draft call: the differentiation
prefix followed by the formatted draft template (`diff_prefix + base_user`). -/
def draftUserContent (openings : List String) (lk : LengthKey)
    (topic research : String) : String :=
  diffContext openings ++ draft_user_template lk topic research

/-- The `_call_llm_safe` argument tuple that `_generate` builds for one
variant. -/
def draftCall (openings : List String) (lk : LengthKey)
    (topic research : String) (v : DraftVariant) : CallRec :=
  { provider := v.provider
    system := (get_draft_stage lk).system
    user_content := draftUserContent openings lk topic research
    temperature := v.temperature
    model_override := some v.model_override }

/-- The `for future in as_completed(futures)` loop: take the futures'
outcomes in completion order, re-raise the first failure encountered
(`future.result()`), and place each success at its submission index
(`results[idx] = {...}`). -/
def collectByIndex {K : Nat} (outs : Fin K → Except PyError DraftResult) :
    List (Fin K) → List (Option DraftResult) →
    Except PyError (List (Option DraftResult))
  | [], acc => .ok acc
  | j :: rest, acc =>
    match outs j with
    | .error e => .error e
    | .ok d => collectByIndex outs rest (acc.set j.val (some d))

/-- pipeline.py `run_parallel_drafts`, generic in the variant list (the
source reads the module-level `DRAFT_VARIANTS`). `order` is the completion
order of the pool's futures. Returns the results array (initialised to
`None` placeholders, filled by completion) and the submitted calls in
submission order. -/
def run_parallel_drafts_with (variants : List DraftVariant) (oracle : Oracle)
    (openings : List String) (lk : LengthKey) (topic research : String)
    (order : List (Fin variants.length)) :
    Except PyError (List (Option DraftResult)) × List CallRec :=
  let outs : Fin variants.length → Except PyError DraftResult := fun i =>
    match call_llm_safe oracle (draftCall openings lk topic research (variants.get i)) with
    | (.ok text, _) => .ok { label := (variants.get i).label, text := text }
    | (.error e, _) => .error e
  (collectByIndex outs order (List.replicate variants.length none),
   variants.map (draftCall openings lk topic research))

/-- pipeline.py `run_parallel_drafts`, with the repository's
`DRAFT_VARIANTS`. -/
def run_parallel_drafts (oracle : Oracle) (openings : List String)
    (lk : LengthKey) (topic research : String)
    (order : List (Fin DRAFT_VARIANTS.length)) :
    Except PyError (List (Option DraftResult)) × List CallRec :=
  run_parallel_drafts_with DRAFT_VARIANTS oracle openings lk topic research order

/-! ### Judge (pipeline.py `run_judge`) -/

/-- Case-insensitive prefix test, the behaviour of `re.IGNORECASE` on the
literal parts of the winner pattern. -/
def ciStartsWith : List Char → List Char → Bool
  | [], _ => true
  | _ :: _, [] => false
  | p :: ps, c :: cs => p.toUpper = c.toUpper && ciStartsWith ps cs

/-- The winner pattern `WINNER:\s*([A...])` attempted at one position:
`WINNER:` case-insensitively, then ASCII whitespace, then one of
`letters` (either case); the captured letter is upper-cased as in
`match.group(1).upper()`. -/
def matchWinnerAt (letters : List Char) (cs : List Char) : Option Char :=
  if ciStartsWith "WINNER:".toList cs then
    match (cs.drop 7).dropWhile isPySpace with
    | c :: _ => if letters.contains c.toUpper then some c.toUpper else none
    | [] => none
  else none

/-- `re.search(r"WINNER:\s*([A...])", judgment, re.IGNORECASE)`: the
left-most position where the winner pattern matches. -/
def findWinner (letters : List Char) : List Char → Option Char
  | [] => none
  | c :: rest =>
    match matchWinnerAt letters (c :: rest) with
    | some w => some w
    | none => findWinner letters rest

/-- After `BORROW FROM LOSER[S]?:`, the regex `\s*\n` backtracks from the
greedy whitespace run to its last newline; the `(.*)` capture
(`re.DOTALL`) is everything after that newline. `none` when the
whitespace run holds no newline. -/
def borrowCapture (tail : List Char) : Option (List Char) :=
  let ws := tail.takeWhile isPySpace
  let rest := tail.drop ws.length
  if ws.contains '\n' then
    some ((ws.reverse.takeWhile (fun c => c ≠ '\n')).reverse ++ rest)
  else none

/-- The pattern `BORROW FROM LOSER[S]?:\s*\n(.*)` attempted at one
position (`re.DOTALL | re.IGNORECASE`). -/
def matchBorrowAt (cs : List Char) : Option (List Char) :=
  if ciStartsWith "BORROW FROM LOSER".toList cs then
    match cs.drop 17 with
    | ':' :: t => borrowCapture t
    | c :: ':' :: t => if c.toUpper = 'S' then borrowCapture t else none
    | _ => none
  else none

/-- `re.search` of the borrow pattern: the left-most matching position. -/
def findBorrow : List Char → Option (List Char)
  | [] => none
  | c :: rest =>
    match matchBorrowAt (c :: rest) with
    | some cap => some cap
    | none => findBorrow rest

/-- The `borrow_notes` extraction of `run_judge`: the stripped capture,
`""` when nothing matches. -/
def extractBorrowNotes (judgment : String) : String :=
  match findBorrow judgment.toList with
  | some cap => pyStrip (String.mk cap)
  | none => ""

/-- The verdict dict returned by `run_judge`. -/
structure JudgeVerdict where
  winner_index : Nat
  winner_label : String
  winner_text : String
  judgment : String
  borrow_notes : String
  deriving DecidableEq

/-- Python `letter_map.get(winner_letter, 0)`. -/
def letterMapGetD (m : List (Char × Nat)) (k : Char) (d : Nat) : Nat :=
  match m with
  | [] => d
  | (c, v) :: rest => if k = c then v else letterMapGetD rest k d

/-- The `len(drafts) == 2` branch of `run_judge`: the formatted user
content, the `letter_map` and the letters of the winner pattern.
`IndexError` models an out-of-range draft subscript during formatting. -/
def judgeSetup (topic : String) (drafts : List DraftResult) :
    Except PyError (String × List (Char × Nat) × List Char) :=
  if drafts.length = 2 then
    match drafts[0]?, drafts[1]? with
    | some a, some b =>
      .ok (judge_user_template_2 topic a.text b.text,
           [('A', 0), ('B', 1)], ['A', 'B'])
    | _, _ => .error .indexError
  else
    match drafts[0]?, drafts[1]?, drafts[2]? with
    | some a, some b, some c =>
      .ok (judge_user_template_3 topic a.text b.text c.text,
           [('A', 0), ('B', 1), ('C', 2)], ['A', 'B', 'C'])
    | _, _, _ => .error .indexError

/-- The `_call_llm_safe` argument tuple of `run_judge`. -/
def judgeCall (user_content : String) : CallRec :=
  { provider := "anthropic"
    system := judge_system
    user_content := user_content
    temperature := 20
    model_override := some "claude-sonnet-4-20250514" }

/-- pipeline.py `run_judge`. -/
def run_judge (oracle : Oracle) (topic : String) (drafts : List DraftResult) :
    Except PyError JudgeVerdict × List CallRec :=
  match judgeSetup topic drafts with
  | .error e => (.error e, [])
  | .ok (uc, lmap, letters) =>
    match call_llm_safe oracle (judgeCall uc) with
    | (.error e, calls) => (.error e, calls)
    | (.ok judgment, calls) =>
      let winner_letter := (findWinner letters judgment.toList).getD 'A'
      let winner_index := letterMapGetD lmap winner_letter 0
      match drafts[winner_index]? with
      | none => (.error .indexError, calls)
      | some w =>
        (.ok { winner_index := winner_index
               winner_label := w.label
               winner_text := w.text
               judgment := judgment
               borrow_notes := extractBorrowNotes judgment }, calls)

/-! ### Critique and enhancement (pipeline.py `run_critique`,
`run_enhancement_stage`) -/

/-- The `_call_llm_safe` argument tuple of `run_critique`. -/
def critiqueCall (topic text completed_stage next_stage : String) : CallRec :=
  { provider := "openai"
    system := critique_system
    user_content := critique_user_template topic completed_stage next_stage text
    temperature := 30
    model_override := some "gpt-4o-2024-11-20" }

/-- pipeline.py `run_critique`. -/
def run_critique (oracle : Oracle)
    (topic text completed_stage next_stage : String) :
    Except PyError String × List CallRec :=
  call_llm_safe oracle (critiqueCall topic text completed_stage next_stage)

/-- The `_call_llm_safe` argument tuple of `run_enhancement_stage` for a
given stage dict. -/
def enhancementCall (stage : EnhancementStage)
    (topic research critique previous_output : String) : CallRec :=
  { provider := stage.provider
    system := stage.system
    user_content := stage.user_template topic research critique previous_output
    temperature := stage.temperature
    model_override := stage.model_override }

/-- pipeline.py `run_enhancement_stage`
(`ENHANCEMENT_STAGES[stage_index]`; `IndexError` out of range). -/
def run_enhancement_stage (oracle : Oracle) (stage_index : Nat)
    (topic research critique previous_output : String) :
    Except PyError String × List CallRec :=
  match ENHANCEMENT_STAGES[stage_index]? with
  | none => (.error .indexError, [])
  | some stage =>
    call_llm_safe oracle (enhancementCall stage topic research critique previous_output)

/-! ### The full pipeline (pipeline.py `run_full_pipeline`) -/

/-- The `data` dict of one yielded status tuple. -/
inductive EventData
  | running
  | runningEnh (stage_index : Nat)
  | doneText (text : String)
  | doneDrafts (drafts : List DraftResult)
  | doneJudge (verdict : JudgeVerdict)
  | doneEnh (stage_index : Nat) (text : String)
  | final (final_text : String)
  deriving DecidableEq

/-- One `(step_name, step_type, data)` tuple yielded by
`run_full_pipeline`. -/
structure Event where
  name : String
  ty : String
  data : EventData
  deriving DecidableEq

/-- The `for i, stage in enumerate(ENHANCEMENT_STAGES)` loop of
`run_full_pipeline`: the events yielded, the calls made, and the final
`current_text` (or the first error). `i` is the enumeration index of the
first stage of `stages` and `prev_name` the completed-stage name fed to
its critique. -/
def enhancementLoop (oracle : Oracle) (topic research : String) :
    Nat → String → String → List EnhancementStage →
    List Event × List CallRec × Except PyError String
  | _, _, current, [] => ([], [], .ok current)
  | i, prev_name, current, stage :: rest =>
    let critique_name := "Critique: " ++ prev_name ++ " → " ++ stage.name
    let evCrRun : Event := ⟨critique_name, "critique", .running⟩
    match run_critique oracle topic current prev_name stage.name with
    | (.error e, calls1) => ([evCrRun], calls1, .error e)
    | (.ok critique, calls1) =>
      let evCrDone : Event := ⟨critique_name, "critique", .doneText critique⟩
      let evEnRun : Event := ⟨stage.name, "enhancement", .runningEnh i⟩
      match run_enhancement_stage oracle i topic research critique current with
      | (.error e, calls2) => ([evCrRun, evCrDone, evEnRun], calls1 ++ calls2, .error e)
      | (.ok new_text, calls2) =>
        let evEnDone : Event := ⟨stage.name, "enhancement", .doneEnh i new_text⟩
        let rec3 := enhancementLoop oracle topic research (i + 1) stage.name new_text rest
        (evCrRun :: evCrDone :: evEnRun :: evEnDone :: rec3.1,
         calls1 ++ calls2 ++ rec3.2.1, rec3.2.2)

/-- pipeline.py `run_full_pipeline`. Returns the yielded events, the
calls made, the generator's outcome (the final text, or the first
uncaught error), and the stored openings after the run (`_save_opening`
runs only on success). `order` is the completion order of the draft
stage's futures. -/
def run_full_pipeline (oracle : Oracle) (openings : List String)
    (topic : String) (lk : LengthKey)
    (order : List (Fin DRAFT_VARIANTS.length)) :
    List Event × List CallRec × Except PyError String × List String :=
  let evResRun : Event := ⟨"Stage 0: Research Gathering", "research", .running⟩
  match run_research oracle lk topic with
  | (.error e, calls0) => ([evResRun], calls0, .error e, openings)
  | (.ok research, calls0) =>
    let evResDone : Event := ⟨"Stage 0: Research Gathering", "research", .doneText research⟩
    let evDrRun : Event := ⟨"Stage 1: Parallel Drafts", "drafts", .running⟩
    match run_parallel_drafts oracle openings lk topic research order with
    | (.error e, calls1) =>
      ([evResRun, evResDone, evDrRun], calls0 ++ calls1, .error e, openings)
    | (.ok results, calls1) =>
      match results.mapM id with
      | none =>
        ([evResRun, evResDone, evDrRun], calls0 ++ calls1, .error .typeError, openings)
      | some drafts =>
        let evDrDone : Event := ⟨"Stage 1: Parallel Drafts", "drafts", .doneDrafts drafts⟩
        let evJuRun : Event := ⟨"Judge: Select Best Draft", "judge", .running⟩
        match run_judge oracle topic drafts with
        | (.error e, calls2) =>
          ([evResRun, evResDone, evDrRun, evDrDone, evJuRun],
           calls0 ++ calls1 ++ calls2, .error e, openings)
        | (.ok verdict, calls2) =>
          let evJuDone : Event := ⟨"Judge: Select Best Draft", "judge", .doneJudge verdict⟩
          let loop := enhancementLoop oracle topic research 0
            "Draft Selection (Judge)" verdict.winner_text ENHANCEMENT_STAGES
          match loop.2.2 with
          | .error e =>
            ([evResRun, evResDone, evDrRun, evDrDone, evJuRun, evJuDone] ++ loop.1,
             calls0 ++ calls1 ++ calls2 ++ loop.2.1, .error e, openings)
          | .ok final_text =>
            ([evResRun, evResDone, evDrRun, evDrDone, evJuRun, evJuDone] ++ loop.1
               ++ [⟨"Complete", "done", .final final_text⟩],
             calls0 ++ calls1 ++ calls2 ++ loop.2.1,
             .ok final_text, save_opening final_text openings)

/-! ### Lemmas about the Python primitives -/

theorem lastN_length_le {α : Type} (n : Nat) (l : List α) :
    (lastN n l).length ≤ n := by
  simp only [lastN, List.length_drop]
  omega

theorem lastN_append_right {α : Type} (n : Nat) (a b : List α)
    (h : n ≤ b.length) : lastN n (a ++ b) = lastN n b := by
  unfold lastN
  rw [List.length_append, show a.length + b.length - n = a.length + (b.length - n) by omega,
    List.drop_append]

theorem lastN_idem_append {α : Type} (n : Nat) (a b : List α) :
    lastN n (lastN n a ++ b) = lastN n (a ++ b) := by
  rcases le_or_lt n b.length with h | h
  · rw [lastN_append_right n _ b h, lastN_append_right n a b h]
  · rcases le_or_lt n a.length with h2 | h2
    · unfold lastN
      rw [List.length_append, List.length_append, List.length_drop,
        List.drop_append_eq_append_drop, List.drop_append_eq_append_drop,
        List.drop_drop]
      simp only [List.length_drop]
      congr 1
      · congr 1
        omega
      · congr 1
        omega
    · have hz : a.length - n = 0 := by omega
      unfold lastN
      rw [hz, List.drop_zero]

theorem length_pyTake_le (s : String) (n : Nat) : (pyTake s n).length ≤ n := by
  simp only [pyTake, String.mk_length]
  exact s.toList.length_take_le n

theorem length_pyStrip_le (s : String) : (pyStrip s).length ≤ s.length := by
  simp only [pyStrip, String.mk_length, List.length_reverse]
  calc ((s.toList.dropWhile isPySpace).reverse.dropWhile isPySpace).length
      ≤ (s.toList.dropWhile isPySpace).reverse.length :=
        (List.dropWhile_sublist _).length_le
    _ = (s.toList.dropWhile isPySpace).length := List.length_reverse _
    _ ≤ s.toList.length := (List.dropWhile_sublist _).length_le
    _ = s.length := rfl

theorem length_openingOf_le (text : String) : (openingOf text).length ≤ 300 :=
  le_trans (length_pyStrip_le _) (length_pyTake_le _ _)

theorem pyDictGetD_of_no_key (fields : List (String × PyJson)) (key : String)
    (d : PyJson) (h : ∀ kv ∈ fields, kv.1 ≠ key) :
    pyDictGetD fields key d = d := by
  induction fields with
  | nil => rfl
  | cons kv rest ih =>
    obtain ⟨k, v⟩ := kv
    have hk : ¬(k = key) := by simpa using h (k, v) (by simp)
    simp only [pyDictGetD, if_neg hk]
    exact ih fun kv' h' => h kv' (by simp [h'])

/-! ### The differentiation memory across runs -/

/-- `_save_opening` folded over a non-empty sequence of run outputs: the
stored openings are the last 20 of the initial history extended by each
run's opening excerpt, in order. -/
theorem foldl_save_opening :
    ∀ (texts : List String) (t : String) (init : List String),
      (t :: texts).foldl (fun st u => save_opening u st) init
        = lastN 20 (init ++ (t :: texts).map openingOf)
  | [], t, init => by
    simp [List.foldl, save_opening]
  | t2 :: ts, t, init => by
    have ih := foldl_save_opening ts t2 (save_opening t init)
    simp only [List.foldl] at ih ⊢
    rw [ih, show save_opening t init = lastN 20 (init ++ [openingOf t]) from rfl,
      lastN_idem_append, List.append_assoc]
    rfl

/-- C6: the differentiation-memory store holds at most 20 entries after
any successful run's append, and after at least 20 successful runs it
holds exactly the openings of the 20 most recent runs, in order, the
oldest evicted first — for every starting history. -/
theorem C6_memory_cap_fifo (init : List String) (t : String) (texts : List String) :
    ((t :: texts).foldl (fun st u => save_opening u st) init).length ≤ 20
    ∧ (20 ≤ (t :: texts).length →
        (t :: texts).foldl (fun st u => save_opening u st) init
          = lastN 20 ((t :: texts).map openingOf)) := by
  constructor
  · rw [foldl_save_opening]
    exact lastN_length_le _ _
  · intro h
    rw [foldl_save_opening, lastN_append_right]
    simp only [List.length_map, List.length_cons] at h ⊢
    omega

/-- Witness for C6: 25 runs on top of a seeded history. -/
theorem C6_memory_cap_fifo_witness :
    20 ≤ (("a" :: List.replicate 24 "b") : List String).length
    ∧ ((("a" :: List.replicate 24 "b").foldl
          (fun st u => save_opening u st) ["seed"]).length ≤ 20
      ∧ (20 ≤ (("a" :: List.replicate 24 "b") : List String).length →
          ("a" :: List.replicate 24 "b").foldl
              (fun st u => save_opening u st) ["seed"]
            = lastN 20 (("a" :: List.replicate 24 "b").map openingOf))) :=
  ⟨by decide, C6_memory_cap_fifo ["seed"] "a" (List.replicate 24 "b")⟩

/-! ### Claim C7: the generation-client error taxonomy -/

/-- C7: whenever the underlying backend call raises one of the provider
failure kinds, `_call_llm_safe` surfaces exactly one fatal error
(`RuntimeError`) carrying that kind's human-readable cause message, and
the underlying call is attempted exactly once (the attempt log is the
singleton of this call). -/
theorem C7_error_taxonomy_no_retry (oracle : Oracle) (c : CallRec)
    (e : LLMException) (h : oracle c = .error e) :
    call_llm_safe oracle c = (.error (.runtimeError (errMessage e)), [c]) := by
  simp [call_llm_safe, h]

/-- A sample generation-call argument tuple. -/
def sampleCall : CallRec :=
  { provider := "anthropic", system := "s", user_content := "u"
    temperature := 70, model_override := none }

/-- Witness for C7: a rate-limited Anthropic call. -/
theorem C7_error_taxonomy_no_retry_witness :
    (fun _ => (.error .anthropicRateLimit : Except LLMException String)) sampleCall
        = .error .anthropicRateLimit
    ∧ call_llm_safe (fun _ => .error .anthropicRateLimit) sampleCall
        = (.error (.runtimeError "Rate limited by Anthropic. Wait a moment and retry."),
           [sampleCall]) :=
  ⟨rfl, C7_error_taxonomy_no_retry _ sampleCall .anthropicRateLimit rfl⟩

/-! ### Claim C10: `_load_history` on degenerate file states -/

/-- C10 counterexample: a history file holding valid JSON that is not an
object — here the top-level array `[]`, which has no `"openings"` key —
makes `_load_history` raise (`AttributeError` from `.get` on a list),
instead of returning the empty list. -/
theorem C10_counterexample :
    load_history (.parsed (.arr [])) = .error .attributeError := rfl

/-- C10 (amended): `_load_history` returns the empty list and never
raises when the backing file is absent, holds malformed JSON, or holds a
JSON object lacking the `"openings"` key; for valid non-object JSON the
`AttributeError` of `.get` propagates uncaught. -/
theorem C10_load_history_degenerate (f : HistoryFile)
    (h : f = .absent ∨ f = .malformed
      ∨ ∃ fields, f = .parsed (.obj fields) ∧ ∀ kv ∈ fields, kv.1 ≠ "openings") :
    load_history f = .ok (.arr []) := by
  rcases h with h | h | ⟨fields, rfl, hk⟩
  · subst h; rfl
  · subst h; rfl
  · show Except.ok (pyDictGetD fields "openings" (.arr [])) = .ok (.arr [])
    rw [pyDictGetD_of_no_key fields "openings" (.arr []) hk]

/-- Witness for C10: the absent-file state. -/
theorem C10_load_history_degenerate_witness :
    (HistoryFile.absent = .absent ∨ HistoryFile.absent = .malformed
      ∨ ∃ fields, HistoryFile.absent = .parsed (.obj fields)
          ∧ ∀ kv ∈ fields, kv.1 ≠ "openings")
    ∧ load_history .absent = .ok (.arr []) :=
  ⟨Or.inl rfl, C10_load_history_degenerate .absent (Or.inl rfl)⟩

/-! ### Claim C8: the differentiation prefix of every draft call -/

/-- C8: the user content of every call submitted by the draft fan-out
stage is the differentiation prefix followed by the base user content
(topic + research); the prefix is empty exactly when the stored history
is empty, and otherwise renders the most recent (up to 5) stored openings
through `DIFFERENTIATION_CONTEXT`. -/
theorem C8_draft_prompt_structure (oracle : Oracle) (openings : List String)
    (lk : LengthKey) (topic research : String)
    (order : List (Fin DRAFT_VARIANTS.length)) (c : CallRec)
    (hc : c ∈ (run_parallel_drafts oracle openings lk topic research order).2) :
    c.user_content = diffContext openings ++ draft_user_template lk topic research
    ∧ (openings = [] → c.user_content = draft_user_template lk topic research)
    ∧ (openings ≠ [] → diffContext openings
        = differentiation_context_fmt
            (String.intercalate "\n---\n" (lastN 5 openings))) := by
  have hlog : (run_parallel_drafts oracle openings lk topic research order).2
      = DRAFT_VARIANTS.map (draftCall openings lk topic research) := rfl
  rw [hlog] at hc
  obtain ⟨v, _, rfl⟩ := List.mem_map.mp hc
  refine ⟨rfl, ?_, ?_⟩
  · intro h
    subst h
    show diffContext [] ++ draft_user_template lk topic research = _
    rw [show diffContext [] = "" from rfl, String.empty_append]
  · intro h
    simp [diffContext, h]

/-- Witness for C8: the first submitted call of a run with one stored
opening. -/
theorem C8_draft_prompt_structure_witness :
    draftCall ["o1"] .min10 "t" "r" variantA
        ∈ (run_parallel_drafts (okClient fun _ => "x") ["o1"] .min10 "t" "r" []).2
    ∧ ((draftCall ["o1"] .min10 "t" "r" variantA).user_content
          = diffContext ["o1"] ++ draft_user_template .min10 "t" "r"
      ∧ (["o1"] = ([] : List String) →
          (draftCall ["o1"] .min10 "t" "r" variantA).user_content
            = draft_user_template .min10 "t" "r")
      ∧ ((["o1"] : List String) ≠ [] → diffContext ["o1"]
          = differentiation_context_fmt
              (String.intercalate "\n---\n" (lastN 5 ["o1"])))) :=
  ⟨List.mem_cons_self _ _,
   C8_draft_prompt_structure (okClient fun _ => "x") ["o1"] .min10 "t" "r" []
     (draftCall ["o1"] .min10 "t" "r" variantA) (List.mem_cons_self _ _)⟩


/-! ### The fan-out stage: placement by submission order -/

theorem collectByIndex_ok {K : Nat} (d : Fin K → DraftResult)
    (order : List (Fin K)) (acc : List (Option DraftResult)) :
    collectByIndex (fun i => .ok (d i)) order acc
      = .ok (order.foldl (fun a j => a.set j.val (some (d j))) acc) := by
  induction order generalizing acc with
  | nil => rfl
  | cons j rest ih =>
    simp only [collectByIndex, List.foldl_cons]
    exact ih _

theorem foldl_set_length {K : Nat} (d : Fin K → DraftResult)
    (order : List (Fin K)) (acc : List (Option DraftResult)) :
    (order.foldl (fun a j => a.set j.val (some (d j))) acc).length = acc.length := by
  induction order generalizing acc with
  | nil => rfl
  | cons j rest ih => rw [List.foldl_cons, ih, List.length_set]

theorem foldl_set_getElem {K : Nat} (d : Fin K → DraftResult)
    (order : List (Fin K)) (acc : List (Option DraftResult)) (hacc : acc.length = K)
    (k : Nat) (hk : k < K) :
    (order.foldl (fun a j => a.set j.val (some (d j))) acc)[k]? =
      if (⟨k, hk⟩ : Fin K) ∈ order then some (some (d ⟨k, hk⟩)) else acc[k]? := by
  induction order generalizing acc with
  | nil => simp
  | cons j rest ih =>
    rw [List.foldl_cons, ih _ (by rw [List.length_set]; exact hacc)]
    by_cases hmem : (⟨k, hk⟩ : Fin K) ∈ rest
    · simp [hmem]
    · by_cases hjk : j = ⟨k, hk⟩
      · subst hjk
        have hlt : k < acc.length := hacc ▸ hk
        simp [hmem, List.getElem?_set_self', List.getElem?_eq_getElem hlt]
      · have hne : (j : Nat) ≠ k := fun hv => hjk (Fin.ext hv)
        have hkj : ¬((⟨k, hk⟩ : Fin K) = j) := fun h => hjk h.symm
        simp [hmem, hkj, List.getElem?_set_ne hne]

/-- The fan-out stage over any variant list, driven by a client that
answers every call: exactly one result per variant, placed at its
submission index, for every completion order. -/
theorem fanout_ok (variants : List DraftVariant)
    (f : CallRec → String) (openings : List String) (lk : LengthKey)
    (topic research : String) (order : List (Fin variants.length))
    (horder : order.Perm (List.finRange variants.length)) :
    ∃ results,
      (run_parallel_drafts_with variants (okClient f) openings lk topic research order).1
          = .ok results
      ∧ results.length = variants.length
      ∧ ∀ (i : Nat) (hi : i < variants.length),
          results[i]? = some (some
            { label := (variants.get ⟨i, hi⟩).label
              text := f (draftCall openings lk topic research (variants.get ⟨i, hi⟩)) }) := by
  have houts :
      (run_parallel_drafts_with variants (okClient f) openings lk topic research order).1
        = collectByIndex (fun i => .ok
            { label := (variants.get i).label
              text := f (draftCall openings lk topic research (variants.get i)) })
          order (List.replicate variants.length none) := rfl
  rw [houts, collectByIndex_ok]
  refine ⟨_, rfl, ?_, ?_⟩
  · rw [foldl_set_length, List.length_replicate]
  · intro i hi
    rw [foldl_set_getElem _ _ _ (List.length_replicate _ _) i hi,
      if_pos (horder.mem_iff.mpr (List.mem_finRange _))]

/-- C2: for every configured variant list (of any count K) and every
completion order of the concurrent generation calls, the fan-out stage
returns exactly K results, and the result at index `i` carries the label
of the variant at submission index `i` — placement is by submission
order, not completion order. -/
theorem C2_fanout_by_submission_order (variants : List DraftVariant)
    (f : CallRec → String) (openings : List String) (lk : LengthKey)
    (topic research : String) (order : List (Fin variants.length))
    (horder : order.Perm (List.finRange variants.length)) :
    ∃ results,
      (run_parallel_drafts_with variants (okClient f) openings lk topic research order).1
          = .ok results
      ∧ results.length = variants.length
      ∧ ∀ (i : Nat) (hi : i < variants.length),
          results[i]? = some (some
            { label := (variants.get ⟨i, hi⟩).label
              text := f (draftCall openings lk topic research (variants.get ⟨i, hi⟩)) }) :=
  fanout_ok variants f openings lk topic research order horder

/-- Witness for C2: the repository's two variants with the completion
order reversed. -/
theorem C2_fanout_by_submission_order_witness :
    ([⟨1, by decide⟩, ⟨0, by decide⟩] : List (Fin DRAFT_VARIANTS.length)).Perm
        (List.finRange DRAFT_VARIANTS.length)
    ∧ ∃ results,
      (run_parallel_drafts_with DRAFT_VARIANTS (okClient fun _ => "x") [] .min10 "t" "r"
          [⟨1, by decide⟩, ⟨0, by decide⟩]).1 = .ok results
      ∧ results.length = DRAFT_VARIANTS.length
      ∧ ∀ (i : Nat) (hi : i < DRAFT_VARIANTS.length),
          results[i]? = some (some
            { label := (DRAFT_VARIANTS.get ⟨i, hi⟩).label
              text := (fun _ => "x")
                (draftCall [] .min10 "t" "r" (DRAFT_VARIANTS.get ⟨i, hi⟩)) }) :=
  ⟨by decide,
   C2_fanout_by_submission_order DRAFT_VARIANTS (fun _ => "x") [] .min10 "t" "r"
     [⟨1, by decide⟩, ⟨0, by decide⟩] (by decide)⟩

/-- A two-element list is determined by its optional lookups. -/
theorem list_two_of_getElem {α : Type} (l : List α) (a b : α) (hl : l.length = 2)
    (h0 : l[0]? = some a) (h1 : l[1]? = some b) : l = [a, b] := by
  rcases l with _ | ⟨x, _ | ⟨y, _ | _⟩⟩ <;> simp_all

/-- On an all-successful run, the pipeline's fan-out stage yields exactly
the two variant drafts in submission order, whatever the completion
order. -/
theorem run_parallel_drafts_ok (f : CallRec → String) (openings : List String)
    (lk : LengthKey) (topic research : String)
    (order : List (Fin DRAFT_VARIANTS.length))
    (horder : order.Perm (List.finRange DRAFT_VARIANTS.length)) :
    run_parallel_drafts (okClient f) openings lk topic research order
      = (.ok [some { label := variantA.label
                     text := f (draftCall openings lk topic research variantA) },
              some { label := variantB.label
                     text := f (draftCall openings lk topic research variantB) }],
         [draftCall openings lk topic research variantA,
          draftCall openings lk topic research variantB]) := by
  obtain ⟨results, h1, h2, h3⟩ :=
    fanout_ok DRAFT_VARIANTS f openings lk topic research order horder
  have e0 := h3 0 (by decide)
  have e1 := h3 1 (by decide)
  have hres : results
      = [some { label := variantA.label
                text := f (draftCall openings lk topic research variantA) },
         some { label := variantB.label
                text := f (draftCall openings lk topic research variantB) }] :=
    list_two_of_getElem results _ _ h2 e0 e1
  calc run_parallel_drafts (okClient f) openings lk topic research order
      = ((run_parallel_drafts_with DRAFT_VARIANTS (okClient f) openings lk topic
            research order).1,
         [draftCall openings lk topic research variantA,
          draftCall openings lk topic research variantB]) := rfl
    _ = _ := by rw [h1, hres]


/-! ### Claim C4: the judge's winner index -/

theorem letterMapGetD_two_lt (k : Char) :
    letterMapGetD [('A', 0), ('B', 1)] k 0 < 2 := by
  by_cases h1 : k = 'A' <;> by_cases h2 : k = 'B' <;>
    simp [letterMapGetD, h1, h2]

/-- Whenever `run_judge` returns a verdict, its winner index was a valid
subscript into the draft list. -/
theorem run_judge_winner_lt (oracle : Oracle) (topic : String)
    (drafts : List DraftResult) (v : JudgeVerdict) (calls : List CallRec)
    (h : run_judge oracle topic drafts = (.ok v, calls)) :
    v.winner_index < drafts.length := by
  unfold run_judge at h
  split at h
  · simp at h
  · next uc lmap letters heq =>
    rw [call_llm_safe] at h
    split at h
    · simp at h
    · next judgment calls2 hreply =>
      dsimp only [] at h
      split at h
      · simp at h
      · next w hw =>
        simp only [Prod.mk.injEq, Except.ok.injEq] at h
        obtain ⟨hv, -⟩ := h
        rw [← hv]
        exact (List.getElem?_eq_some.mp hw).1

/-- Inverting a successful `judgeSetup`: the letter map sends `'A'` to 0
and the draft list has a first element. -/
theorem judgeSetup_ok_inv (topic : String) (drafts : List DraftResult)
    (uc : String) (lmap : List (Char × Nat)) (letters : List Char)
    (h : judgeSetup topic drafts = .ok (uc, lmap, letters)) :
    letterMapGetD lmap 'A' 0 = 0 ∧ ∃ a, drafts[0]? = some a := by
  unfold judgeSetup at h
  split at h
  · split at h
    · next a b ha hb =>
      simp only [Except.ok.injEq, Prod.mk.injEq] at h
      obtain ⟨-, hmap, -⟩ := h
      subst hmap
      exact ⟨rfl, a, ha⟩
    · simp at h
  · split at h
    · next a b c ha hb hc =>
      simp only [Except.ok.injEq, Prod.mk.injEq] at h
      obtain ⟨-, hmap, -⟩ := h
      subst hmap
      exact ⟨rfl, a, ha⟩
    · simp at h

/-- C4: whenever `run_judge` produces a verdict its winner index is in
`[0, K)` for the K-draft collection it judged; and for every judge reply
in which the winner pattern `WINNER: <letter>` matches nowhere, the
verdict is produced without error and its winner index is 0 (the first
draft), deterministically. -/
theorem C4_judge_winner_in_range (oracle : Oracle) (topic : String)
    (drafts : List DraftResult) :
    (∀ v calls, run_judge oracle topic drafts = (.ok v, calls) →
        v.winner_index < drafts.length)
    ∧ (∀ uc lmap letters reply,
        judgeSetup topic drafts = .ok (uc, lmap, letters) →
        oracle (judgeCall uc) = .ok reply →
        findWinner letters reply.toList = none →
        ∃ v calls, run_judge oracle topic drafts = (.ok v, calls)
          ∧ v.winner_index = 0) := by
  constructor
  · exact fun v calls h => run_judge_winner_lt oracle topic drafts v calls h
  · intro uc lmap letters reply hsetup hcall hnone
    obtain ⟨hmap0, w, hw⟩ := judgeSetup_ok_inv topic drafts uc lmap letters hsetup
    refine ⟨{ winner_index := 0, winner_label := w.label, winner_text := w.text
              judgment := reply, borrow_notes := extractBorrowNotes reply },
            [judgeCall uc], ?_, rfl⟩
    simp only [run_judge, hsetup, call_llm_safe, hcall, hnone, Option.getD_none,
      hmap0, hw]

/-- Witness for C4: two drafts and a reply with no winner line. -/
theorem C4_judge_winner_in_range_witness :
    (judgeSetup "t" [⟨"A-label", "ta"⟩, ⟨"B-label", "tb"⟩]
        = .ok (judge_user_template_2 "t" "ta" "tb", [('A', 0), ('B', 1)], ['A', 'B']))
    ∧ ((okClient fun _ => "no verdict here")
          (judgeCall (judge_user_template_2 "t" "ta" "tb")) = .ok "no verdict here")
    ∧ findWinner ['A', 'B'] "no verdict here".toList = none
    ∧ ((∀ v calls, run_judge (okClient fun _ => "no verdict here") "t"
            [⟨"A-label", "ta"⟩, ⟨"B-label", "tb"⟩] = (.ok v, calls) →
            v.winner_index < ([⟨"A-label", "ta"⟩, ⟨"B-label", "tb"⟩] : List DraftResult).length)
      ∧ (∀ uc lmap letters reply,
          judgeSetup "t" [⟨"A-label", "ta"⟩, ⟨"B-label", "tb"⟩] = .ok (uc, lmap, letters) →
          (okClient fun _ => "no verdict here") (judgeCall uc) = .ok reply →
          findWinner letters reply.toList = none →
          ∃ v calls, run_judge (okClient fun _ => "no verdict here") "t"
              [⟨"A-label", "ta"⟩, ⟨"B-label", "tb"⟩] = (.ok v, calls)
            ∧ v.winner_index = 0)) :=
  ⟨rfl, rfl, by decide,
   C4_judge_winner_in_range (okClient fun _ => "no verdict here") "t"
     [⟨"A-label", "ta"⟩, ⟨"B-label", "tb"⟩]⟩

/-- Evaluating `run_judge` on exactly two drafts when the judge call
succeeds: the verdict follows the parsed winner letter, defaulting to
draft 0. -/
theorem run_judge_two_eval (oracle : Oracle) (topic la ta lb tb : String)
    (reply : String)
    (hc : oracle (judgeCall (judge_user_template_2 topic ta tb)) = .ok reply) :
    run_judge oracle topic [{ label := la, text := ta }, { label := lb, text := tb }]
      = (.ok { winner_index :=
                 letterMapGetD [('A', 0), ('B', 1)]
                   ((findWinner ['A', 'B'] reply.toList).getD 'A') 0
               winner_label :=
                 if letterMapGetD [('A', 0), ('B', 1)]
                     ((findWinner ['A', 'B'] reply.toList).getD 'A') 0 = 0
                 then la else lb
               winner_text :=
                 if letterMapGetD [('A', 0), ('B', 1)]
                     ((findWinner ['A', 'B'] reply.toList).getD 'A') 0 = 0
                 then ta else tb
               judgment := reply
               borrow_notes := extractBorrowNotes reply },
         [judgeCall (judge_user_template_2 topic ta tb)]) := by
  have hlt := letterMapGetD_two_lt ((findWinner ['A', 'B'] reply.toList).getD 'A')
  set widx := letterMapGetD [('A', 0), ('B', 1)]
    ((findWinner ['A', 'B'] reply.toList).getD 'A') 0 with hwidx
  have hidx : ([{ label := la, text := ta }, { label := lb, text := tb }] :
        List DraftResult)[widx]?
      = some (if widx = 0 then { label := la, text := ta }
              else { label := lb, text := tb }) := by
    rcases (by omega : widx = 0 ∨ widx = 1) with h | h <;> simp [h]
  simp only [run_judge,
    show judgeSetup topic [{ label := la, text := ta }, { label := lb, text := tb }]
        = .ok (judge_user_template_2 topic ta tb,
               [('A', 0), ('B', 1)], ['A', 'B']) from rfl,
    call_llm_safe, hc]
  simp only [← hwidx, hidx]
  rcases (by omega : widx = 0 ∨ widx = 1) with h | h <;> simp [h]


/-! ### Verbatim containment in the formatted prompts -/

/-- `part` occurs verbatim inside `u`. -/
def containsSub (u part : String) : Prop :=
  ∃ pre post, u = pre ++ part ++ post

theorem containsSub_last (pre part : String) : containsSub (pre ++ part) part :=
  ⟨pre, "", by rw [String.append_empty]⟩

theorem containsSub_append_right (u b part : String) (h : containsSub u part) :
    containsSub (u ++ b) part := by
  obtain ⟨pre, post, rfl⟩ := h
  exact ⟨pre, post ++ b, by rw [String.append_assoc (pre ++ part) post b]⟩

theorem enh2_contains_critique (t r c p : String) :
    containsSub (enhancement_user_template_2 t r c p) c := by
  unfold enhancement_user_template_2
  repeat first
  | exact containsSub_last _ _
  | apply containsSub_append_right

theorem enh2_contains_research (t r c p : String) :
    containsSub (enhancement_user_template_2 t r c p) r := by
  unfold enhancement_user_template_2
  repeat first
  | exact containsSub_last _ _
  | apply containsSub_append_right

theorem enh2_contains_previous (t r c p : String) :
    containsSub (enhancement_user_template_2 t r c p) p := by
  unfold enhancement_user_template_2
  repeat first
  | exact containsSub_last _ _
  | apply containsSub_append_right

theorem enh3_contains_critique (t r c p : String) :
    containsSub (enhancement_user_template_3 t r c p) c := by
  unfold enhancement_user_template_3
  repeat first
  | exact containsSub_last _ _
  | apply containsSub_append_right

theorem enh3_contains_research (t r c p : String) :
    containsSub (enhancement_user_template_3 t r c p) r := by
  unfold enhancement_user_template_3
  repeat first
  | exact containsSub_last _ _
  | apply containsSub_append_right

theorem enh3_contains_previous (t r c p : String) :
    containsSub (enhancement_user_template_3 t r c p) p := by
  unfold enhancement_user_template_3
  repeat first
  | exact containsSub_last _ _
  | apply containsSub_append_right

theorem enh4_contains_critique (t r c p : String) :
    containsSub (enhancement_user_template_4 t r c p) c := by
  unfold enhancement_user_template_4
  repeat first
  | exact containsSub_last _ _
  | apply containsSub_append_right

theorem enh4_contains_research (t r c p : String) :
    containsSub (enhancement_user_template_4 t r c p) r := by
  unfold enhancement_user_template_4
  repeat first
  | exact containsSub_last _ _
  | apply containsSub_append_right

theorem enh4_contains_previous (t r c p : String) :
    containsSub (enhancement_user_template_4 t r c p) p := by
  unfold enhancement_user_template_4
  repeat first
  | exact containsSub_last _ _
  | apply containsSub_append_right

theorem enh5_contains_critique (t r c p : String) :
    containsSub (enhancement_user_template_5 t r c p) c := by
  unfold enhancement_user_template_5
  repeat first
  | exact containsSub_last _ _
  | apply containsSub_append_right

theorem enh5_contains_research (t r c p : String) :
    containsSub (enhancement_user_template_5 t r c p) r := by
  unfold enhancement_user_template_5
  repeat first
  | exact containsSub_last _ _
  | apply containsSub_append_right

theorem enh5_contains_previous (t r c p : String) :
    containsSub (enhancement_user_template_5 t r c p) p := by
  unfold enhancement_user_template_5
  repeat first
  | exact containsSub_last _ _
  | apply containsSub_append_right

/-! ### The enhancement loop on an all-successful run -/

/-- Evaluating the critique/enhancement loop over the repository's four
stages when every call succeeds. -/
theorem enhancementLoop_ok_eval (f : CallRec → String) (topic research w : String) :
    enhancementLoop (okClient f) topic research 0 "Draft Selection (Judge)" w
        ENHANCEMENT_STAGES
      = (let c0 := f (critiqueCall topic w "Draft Selection (Judge)" stage2.name)
         let e0 := f (enhancementCall stage2 topic research c0 w)
         let c1 := f (critiqueCall topic e0 stage2.name stage3.name)
         let e1 := f (enhancementCall stage3 topic research c1 e0)
         let c2 := f (critiqueCall topic e1 stage3.name stage4.name)
         let e2 := f (enhancementCall stage4 topic research c2 e1)
         let c3 := f (critiqueCall topic e2 stage4.name stage5.name)
         let e3 := f (enhancementCall stage5 topic research c3 e2)
         ([⟨"Critique: " ++ "Draft Selection (Judge)" ++ " → " ++ stage2.name,
             "critique", .running⟩,
           ⟨"Critique: " ++ "Draft Selection (Judge)" ++ " → " ++ stage2.name,
             "critique", .doneText c0⟩,
           ⟨stage2.name, "enhancement", .runningEnh 0⟩,
           ⟨stage2.name, "enhancement", .doneEnh 0 e0⟩,
           ⟨"Critique: " ++ stage2.name ++ " → " ++ stage3.name, "critique", .running⟩,
           ⟨"Critique: " ++ stage2.name ++ " → " ++ stage3.name, "critique", .doneText c1⟩,
           ⟨stage3.name, "enhancement", .runningEnh 1⟩,
           ⟨stage3.name, "enhancement", .doneEnh 1 e1⟩,
           ⟨"Critique: " ++ stage3.name ++ " → " ++ stage4.name, "critique", .running⟩,
           ⟨"Critique: " ++ stage3.name ++ " → " ++ stage4.name, "critique", .doneText c2⟩,
           ⟨stage4.name, "enhancement", .runningEnh 2⟩,
           ⟨stage4.name, "enhancement", .doneEnh 2 e2⟩,
           ⟨"Critique: " ++ stage4.name ++ " → " ++ stage5.name, "critique", .running⟩,
           ⟨"Critique: " ++ stage4.name ++ " → " ++ stage5.name, "critique", .doneText c3⟩,
           ⟨stage5.name, "enhancement", .runningEnh 3⟩,
           ⟨stage5.name, "enhancement", .doneEnh 3 e3⟩],
          [critiqueCall topic w "Draft Selection (Judge)" stage2.name,
           enhancementCall stage2 topic research c0 w,
           critiqueCall topic e0 stage2.name stage3.name,
           enhancementCall stage3 topic research c1 e0,
           critiqueCall topic e1 stage3.name stage4.name,
           enhancementCall stage4 topic research c2 e1,
           critiqueCall topic e2 stage4.name stage5.name,
           enhancementCall stage5 topic research c3 e2],
          .ok e3)) := rfl


/-! ### The full pipeline on an all-successful run -/

/-- Evaluating `run_full_pipeline` when every generation call succeeds:
the exact event stream, the calls made in order, the final text (the
output of the last enhancement stage), and the history append. -/
theorem run_full_pipeline_ok (f : CallRec → String) (openings : List String)
    (topic : String) (lk : LengthKey) (order : List (Fin DRAFT_VARIANTS.length))
    (horder : order.Perm (List.finRange DRAFT_VARIANTS.length)) :
    ∃ (research dA dB : String) (verdict : JudgeVerdict)
      (c0 e0 c1 e1 c2 e2 c3 e3 : String),
      research = f (researchCall lk topic)
      ∧ dA = f (draftCall openings lk topic research variantA)
      ∧ dB = f (draftCall openings lk topic research variantB)
      ∧ verdict.judgment = f (judgeCall (judge_user_template_2 topic dA dB))
      ∧ verdict.winner_index < 2
      ∧ verdict.winner_text = (if verdict.winner_index = 0 then dA else dB)
      ∧ c0 = f (critiqueCall topic verdict.winner_text "Draft Selection (Judge)" stage2.name)
      ∧ e0 = f (enhancementCall stage2 topic research c0 verdict.winner_text)
      ∧ c1 = f (critiqueCall topic e0 stage2.name stage3.name)
      ∧ e1 = f (enhancementCall stage3 topic research c1 e0)
      ∧ c2 = f (critiqueCall topic e1 stage3.name stage4.name)
      ∧ e2 = f (enhancementCall stage4 topic research c2 e1)
      ∧ c3 = f (critiqueCall topic e2 stage4.name stage5.name)
      ∧ e3 = f (enhancementCall stage5 topic research c3 e2)
      ∧ run_full_pipeline (okClient f) openings topic lk order
        = ([⟨"Stage 0: Research Gathering", "research", .running⟩,
            ⟨"Stage 0: Research Gathering", "research", .doneText research⟩,
            ⟨"Stage 1: Parallel Drafts", "drafts", .running⟩,
            ⟨"Stage 1: Parallel Drafts", "drafts",
              .doneDrafts [⟨variantA.label, dA⟩, ⟨variantB.label, dB⟩]⟩,
            ⟨"Judge: Select Best Draft", "judge", .running⟩,
            ⟨"Judge: Select Best Draft", "judge", .doneJudge verdict⟩,
            ⟨"Critique: " ++ "Draft Selection (Judge)" ++ " → " ++ stage2.name,
              "critique", .running⟩,
            ⟨"Critique: " ++ "Draft Selection (Judge)" ++ " → " ++ stage2.name,
              "critique", .doneText c0⟩,
            ⟨stage2.name, "enhancement", .runningEnh 0⟩,
            ⟨stage2.name, "enhancement", .doneEnh 0 e0⟩,
            ⟨"Critique: " ++ stage2.name ++ " → " ++ stage3.name, "critique", .running⟩,
            ⟨"Critique: " ++ stage2.name ++ " → " ++ stage3.name, "critique", .doneText c1⟩,
            ⟨stage3.name, "enhancement", .runningEnh 1⟩,
            ⟨stage3.name, "enhancement", .doneEnh 1 e1⟩,
            ⟨"Critique: " ++ stage3.name ++ " → " ++ stage4.name, "critique", .running⟩,
            ⟨"Critique: " ++ stage3.name ++ " → " ++ stage4.name, "critique", .doneText c2⟩,
            ⟨stage4.name, "enhancement", .runningEnh 2⟩,
            ⟨stage4.name, "enhancement", .doneEnh 2 e2⟩,
            ⟨"Critique: " ++ stage4.name ++ " → " ++ stage5.name, "critique", .running⟩,
            ⟨"Critique: " ++ stage4.name ++ " → " ++ stage5.name, "critique", .doneText c3⟩,
            ⟨stage5.name, "enhancement", .runningEnh 3⟩,
            ⟨stage5.name, "enhancement", .doneEnh 3 e3⟩,
            ⟨"Complete", "done", .final e3⟩],
           [researchCall lk topic,
            draftCall openings lk topic research variantA,
            draftCall openings lk topic research variantB,
            judgeCall (judge_user_template_2 topic dA dB),
            critiqueCall topic verdict.winner_text "Draft Selection (Judge)" stage2.name,
            enhancementCall stage2 topic research c0 verdict.winner_text,
            critiqueCall topic e0 stage2.name stage3.name,
            enhancementCall stage3 topic research c1 e0,
            critiqueCall topic e1 stage3.name stage4.name,
            enhancementCall stage4 topic research c2 e1,
            critiqueCall topic e2 stage4.name stage5.name,
            enhancementCall stage5 topic research c3 e2],
           .ok e3, save_opening e3 openings) := by
  set research := f (researchCall lk topic) with hres
  set dA := f (draftCall openings lk topic research variantA) with hdA
  set dB := f (draftCall openings lk topic research variantB) with hdB
  have hdr := run_parallel_drafts_ok f openings lk topic research order horder
  have hjudge := run_judge_two_eval (okClient f) topic variantA.label dA
    variantB.label dB (f (judgeCall (judge_user_template_2 topic dA dB))) rfl
  set J := f (judgeCall (judge_user_template_2 topic dA dB)) with hJ
  set widx := letterMapGetD [('A', 0), ('B', 1)]
    ((findWinner ['A', 'B'] J.toList).getD 'A') 0 with hwidx
  set verdict : JudgeVerdict :=
    { winner_index := widx
      winner_label := if widx = 0 then variantA.label else variantB.label
      winner_text := if widx = 0 then dA else dB
      judgment := J
      borrow_notes := extractBorrowNotes J } with hverdict
  have hwlt : widx < 2 := letterMapGetD_two_lt _
  have hstep0 : run_research (okClient f) lk topic
      = (.ok research, [researchCall lk topic]) := rfl
  have hmapM : (([some ⟨variantA.label, dA⟩, some ⟨variantB.label, dB⟩] :
      List (Option DraftResult)).mapM id)
      = some [⟨variantA.label, dA⟩, ⟨variantB.label, dB⟩] := rfl
  have hloop := enhancementLoop_ok_eval f topic research verdict.winner_text
  refine ⟨research, dA, dB, verdict, _, _, _, _, _, _, _, _,
    hres, hdA, hdB, rfl, hwlt, rfl, rfl, rfl, rfl, rfl, rfl, rfl, rfl, rfl, ?_⟩
  simp only [run_full_pipeline, hstep0, hdr, hmapM, hjudge, hloop]
  rfl


/-! ### Claim C1: the event stream of a fully successful run -/

/-- C1: on every run in which no generation call fails, the emitted event
stream is exactly, in order: research(running), research(done, text),
drafts(running), drafts(done, drafts), judge(running), judge(done,
verdict), then for each enhancement stage i in 0..3: critique_i(running),
critique_i(done, text), enhancement_i(running), enhancement_i(done,
text), and finally done(final_text), where the final text equals the
output of the last enhancement stage — exactly one running event followed
by exactly one done event per phase. -/
theorem C1_event_stream (f : CallRec → String) (openings : List String)
    (topic : String) (lk : LengthKey) (order : List (Fin DRAFT_VARIANTS.length))
    (horder : order.Perm (List.finRange DRAFT_VARIANTS.length)) :
    ∃ (research : String) (drafts : List DraftResult) (verdict : JudgeVerdict)
      (c0 e0 c1 e1 c2 e2 c3 e3 : String),
      (run_full_pipeline (okClient f) openings topic lk order).1
        = [⟨"Stage 0: Research Gathering", "research", .running⟩,
           ⟨"Stage 0: Research Gathering", "research", .doneText research⟩,
           ⟨"Stage 1: Parallel Drafts", "drafts", .running⟩,
           ⟨"Stage 1: Parallel Drafts", "drafts", .doneDrafts drafts⟩,
           ⟨"Judge: Select Best Draft", "judge", .running⟩,
           ⟨"Judge: Select Best Draft", "judge", .doneJudge verdict⟩,
           ⟨"Critique: " ++ "Draft Selection (Judge)" ++ " → " ++ stage2.name,
             "critique", .running⟩,
           ⟨"Critique: " ++ "Draft Selection (Judge)" ++ " → " ++ stage2.name,
             "critique", .doneText c0⟩,
           ⟨stage2.name, "enhancement", .runningEnh 0⟩,
           ⟨stage2.name, "enhancement", .doneEnh 0 e0⟩,
           ⟨"Critique: " ++ stage2.name ++ " → " ++ stage3.name, "critique", .running⟩,
           ⟨"Critique: " ++ stage2.name ++ " → " ++ stage3.name, "critique", .doneText c1⟩,
           ⟨stage3.name, "enhancement", .runningEnh 1⟩,
           ⟨stage3.name, "enhancement", .doneEnh 1 e1⟩,
           ⟨"Critique: " ++ stage3.name ++ " → " ++ stage4.name, "critique", .running⟩,
           ⟨"Critique: " ++ stage3.name ++ " → " ++ stage4.name, "critique", .doneText c2⟩,
           ⟨stage4.name, "enhancement", .runningEnh 2⟩,
           ⟨stage4.name, "enhancement", .doneEnh 2 e2⟩,
           ⟨"Critique: " ++ stage4.name ++ " → " ++ stage5.name, "critique", .running⟩,
           ⟨"Critique: " ++ stage4.name ++ " → " ++ stage5.name, "critique", .doneText c3⟩,
           ⟨stage5.name, "enhancement", .runningEnh 3⟩,
           ⟨stage5.name, "enhancement", .doneEnh 3 e3⟩,
           ⟨"Complete", "done", .final e3⟩]
      ∧ (run_full_pipeline (okClient f) openings topic lk order).2.2.1 = .ok e3 := by
  obtain ⟨research, dA, dB, verdict, c0, e0, c1, e1, c2, e2, c3, e3,
    -, -, -, -, -, -, -, -, -, -, -, -, -, -, hmain⟩ :=
    run_full_pipeline_ok f openings topic lk order horder
  exact ⟨research, [⟨variantA.label, dA⟩, ⟨variantB.label, dB⟩], verdict,
    c0, e0, c1, e1, c2, e2, c3, e3, by rw [hmain], by rw [hmain]⟩

/-- The completion order used by the concrete witnesses. -/
def sampleOrder : List (Fin DRAFT_VARIANTS.length) :=
  [⟨0, by decide⟩, ⟨1, by decide⟩]

/-- Witness for C1: a run with a constant stub client. -/
theorem C1_event_stream_witness :
    sampleOrder.Perm (List.finRange DRAFT_VARIANTS.length)
    ∧ ∃ (research : String) (drafts : List DraftResult) (verdict : JudgeVerdict)
      (c0 e0 c1 e1 c2 e2 c3 e3 : String),
      (run_full_pipeline (okClient fun _ => "x") [] "t" .min10 sampleOrder).1
        = [⟨"Stage 0: Research Gathering", "research", .running⟩,
           ⟨"Stage 0: Research Gathering", "research", .doneText research⟩,
           ⟨"Stage 1: Parallel Drafts", "drafts", .running⟩,
           ⟨"Stage 1: Parallel Drafts", "drafts", .doneDrafts drafts⟩,
           ⟨"Judge: Select Best Draft", "judge", .running⟩,
           ⟨"Judge: Select Best Draft", "judge", .doneJudge verdict⟩,
           ⟨"Critique: " ++ "Draft Selection (Judge)" ++ " → " ++ stage2.name,
             "critique", .running⟩,
           ⟨"Critique: " ++ "Draft Selection (Judge)" ++ " → " ++ stage2.name,
             "critique", .doneText c0⟩,
           ⟨stage2.name, "enhancement", .runningEnh 0⟩,
           ⟨stage2.name, "enhancement", .doneEnh 0 e0⟩,
           ⟨"Critique: " ++ stage2.name ++ " → " ++ stage3.name, "critique", .running⟩,
           ⟨"Critique: " ++ stage2.name ++ " → " ++ stage3.name, "critique", .doneText c1⟩,
           ⟨stage3.name, "enhancement", .runningEnh 1⟩,
           ⟨stage3.name, "enhancement", .doneEnh 1 e1⟩,
           ⟨"Critique: " ++ stage3.name ++ " → " ++ stage4.name, "critique", .running⟩,
           ⟨"Critique: " ++ stage3.name ++ " → " ++ stage4.name, "critique", .doneText c2⟩,
           ⟨stage4.name, "enhancement", .runningEnh 2⟩,
           ⟨stage4.name, "enhancement", .doneEnh 2 e2⟩,
           ⟨"Critique: " ++ stage4.name ++ " → " ++ stage5.name, "critique", .running⟩,
           ⟨"Critique: " ++ stage4.name ++ " → " ++ stage5.name, "critique", .doneText c3⟩,
           ⟨stage5.name, "enhancement", .runningEnh 3⟩,
           ⟨stage5.name, "enhancement", .doneEnh 3 e3⟩,
           ⟨"Complete", "done", .final e3⟩]
      ∧ (run_full_pipeline (okClient fun _ => "x") [] "t" .min10 sampleOrder).2.2.1
          = .ok e3 :=
  ⟨by decide, C1_event_stream (fun _ => "x") [] "t" .min10 sampleOrder (by decide)⟩

/-! ### Claim C5: the enhancement stages form a sequential fold -/

/-- C5: on a fully successful run, the enhancement stages form a strictly
sequential fold starting from the judge's winning text: stage i's call
consumes the critique produced by the immediately preceding critique call,
the original research text, and the current text — all contained verbatim
in its user content — and its output becomes the current text consumed by
stage i+1; the run's final text is stage 3's output. -/
theorem C5_sequential_enhancement_fold (f : CallRec → String)
    (openings : List String) (topic : String) (lk : LengthKey)
    (order : List (Fin DRAFT_VARIANTS.length))
    (horder : order.Perm (List.finRange DRAFT_VARIANTS.length)) :
    ∃ (research w : String) (verdict : JudgeVerdict)
      (c0 e0 c1 e1 c2 e2 c3 e3 : String),
      w = verdict.winner_text
      ∧ research = f (researchCall lk topic)
      ∧ c0 = f (critiqueCall topic w "Draft Selection (Judge)" stage2.name)
      ∧ e0 = f (enhancementCall stage2 topic research c0 w)
      ∧ c1 = f (critiqueCall topic e0 stage2.name stage3.name)
      ∧ e1 = f (enhancementCall stage3 topic research c1 e0)
      ∧ c2 = f (critiqueCall topic e1 stage3.name stage4.name)
      ∧ e2 = f (enhancementCall stage4 topic research c2 e1)
      ∧ c3 = f (critiqueCall topic e2 stage4.name stage5.name)
      ∧ e3 = f (enhancementCall stage5 topic research c3 e2)
      ∧ (run_full_pipeline (okClient f) openings topic lk order).2.2.1 = .ok e3
      ∧ containsSub (enhancementCall stage2 topic research c0 w).user_content c0
      ∧ containsSub (enhancementCall stage2 topic research c0 w).user_content research
      ∧ containsSub (enhancementCall stage2 topic research c0 w).user_content w
      ∧ containsSub (enhancementCall stage3 topic research c1 e0).user_content c1
      ∧ containsSub (enhancementCall stage3 topic research c1 e0).user_content research
      ∧ containsSub (enhancementCall stage3 topic research c1 e0).user_content e0
      ∧ containsSub (enhancementCall stage4 topic research c2 e1).user_content c2
      ∧ containsSub (enhancementCall stage4 topic research c2 e1).user_content research
      ∧ containsSub (enhancementCall stage4 topic research c2 e1).user_content e1
      ∧ containsSub (enhancementCall stage5 topic research c3 e2).user_content c3
      ∧ containsSub (enhancementCall stage5 topic research c3 e2).user_content research
      ∧ containsSub (enhancementCall stage5 topic research c3 e2).user_content e2 := by
  obtain ⟨research, dA, dB, verdict, c0, e0, c1, e1, c2, e2, c3, e3,
    hres, -, -, -, -, -, hc0, he0, hc1, he1, hc2, he2, hc3, he3, hmain⟩ :=
    run_full_pipeline_ok f openings topic lk order horder
  exact ⟨research, verdict.winner_text, verdict, c0, e0, c1, e1, c2, e2, c3, e3,
    rfl, hres, hc0, he0, hc1, he1, hc2, he2, hc3, he3, by rw [hmain],
    enh2_contains_critique topic research c0 verdict.winner_text,
    enh2_contains_research topic research c0 verdict.winner_text,
    enh2_contains_previous topic research c0 verdict.winner_text,
    enh3_contains_critique topic research c1 e0,
    enh3_contains_research topic research c1 e0,
    enh3_contains_previous topic research c1 e0,
    enh4_contains_critique topic research c2 e1,
    enh4_contains_research topic research c2 e1,
    enh4_contains_previous topic research c2 e1,
    enh5_contains_critique topic research c3 e2,
    enh5_contains_research topic research c3 e2,
    enh5_contains_previous topic research c3 e2⟩

/-- Witness for C5: a run with a constant stub client. -/
theorem C5_sequential_enhancement_fold_witness :
    sampleOrder.Perm (List.finRange DRAFT_VARIANTS.length)
    ∧ ∃ (research w : String) (verdict : JudgeVerdict)
      (c0 e0 c1 e1 c2 e2 c3 e3 : String),
      w = verdict.winner_text
      ∧ research = (fun _ => "x") (researchCall .min10 "t")
      ∧ c0 = (fun _ => "x") (critiqueCall "t" w "Draft Selection (Judge)" stage2.name)
      ∧ e0 = (fun _ => "x") (enhancementCall stage2 "t" research c0 w)
      ∧ c1 = (fun _ => "x") (critiqueCall "t" e0 stage2.name stage3.name)
      ∧ e1 = (fun _ => "x") (enhancementCall stage3 "t" research c1 e0)
      ∧ c2 = (fun _ => "x") (critiqueCall "t" e1 stage3.name stage4.name)
      ∧ e2 = (fun _ => "x") (enhancementCall stage4 "t" research c2 e1)
      ∧ c3 = (fun _ => "x") (critiqueCall "t" e2 stage4.name stage5.name)
      ∧ e3 = (fun _ => "x") (enhancementCall stage5 "t" research c3 e2)
      ∧ (run_full_pipeline (okClient fun _ => "x") [] "t" .min10 sampleOrder).2.2.1
          = .ok e3
      ∧ containsSub (enhancementCall stage2 "t" research c0 w).user_content c0
      ∧ containsSub (enhancementCall stage2 "t" research c0 w).user_content research
      ∧ containsSub (enhancementCall stage2 "t" research c0 w).user_content w
      ∧ containsSub (enhancementCall stage3 "t" research c1 e0).user_content c1
      ∧ containsSub (enhancementCall stage3 "t" research c1 e0).user_content research
      ∧ containsSub (enhancementCall stage3 "t" research c1 e0).user_content e0
      ∧ containsSub (enhancementCall stage4 "t" research c2 e1).user_content c2
      ∧ containsSub (enhancementCall stage4 "t" research c2 e1).user_content research
      ∧ containsSub (enhancementCall stage4 "t" research c2 e1).user_content e1
      ∧ containsSub (enhancementCall stage5 "t" research c3 e2).user_content c3
      ∧ containsSub (enhancementCall stage5 "t" research c3 e2).user_content research
      ∧ containsSub (enhancementCall stage5 "t" research c3 e2).user_content e2 :=
  ⟨by decide,
   C5_sequential_enhancement_fold (fun _ => "x") [] "t" .min10 sampleOrder (by decide)⟩

/-! ### Claim C9: what a successful run appends to the store -/

/-- C9 counterexample: a run whose final text begins with whitespace — a
stub client answering `" x"` to every call — stores the entry `"x"`:
`text[:300].strip()`, not the first 300 characters `" x"` of the final
text as the claim states. -/
theorem C9_counterexample :
    (run_full_pipeline (fun _ => .ok " x") [] "t" .min10 sampleOrder).2.2.1
        = .ok " x"
    ∧ (run_full_pipeline (fun _ => .ok " x") [] "t" .min10 sampleOrder).2.2.2
        = ["x"]
    ∧ ["x"] ≠ [pyTake " x" 300] :=
  ⟨rfl, rfl, by decide⟩

/-- C9 (amended): after every successful run, exactly one entry is
appended to the differentiation-memory store, after the last enhancement
stage completes: the first 300 characters of the run's final text with
surrounding whitespace stripped — hence of length at most 300 — with the
store truncated to its last 20 entries. -/
theorem C9_opening_append (f : CallRec → String) (openings : List String)
    (topic : String) (lk : LengthKey) (order : List (Fin DRAFT_VARIANTS.length))
    (horder : order.Perm (List.finRange DRAFT_VARIANTS.length)) :
    ∃ final_text,
      (run_full_pipeline (okClient f) openings topic lk order).2.2.1 = .ok final_text
      ∧ (run_full_pipeline (okClient f) openings topic lk order).2.2.2
          = lastN 20 (openings ++ [pyStrip (pyTake final_text 300)])
      ∧ (pyStrip (pyTake final_text 300)).length ≤ 300 := by
  obtain ⟨research, dA, dB, verdict, c0, e0, c1, e1, c2, e2, c3, e3,
    -, -, -, -, -, -, -, -, -, -, -, -, -, -, hmain⟩ :=
    run_full_pipeline_ok f openings topic lk order horder
  refine ⟨e3, by rw [hmain], ?_, length_openingOf_le e3⟩
  rw [hmain]
  rfl

/-- Witness for C9: a run with a constant stub client. -/
theorem C9_opening_append_witness :
    sampleOrder.Perm (List.finRange DRAFT_VARIANTS.length)
    ∧ ∃ final_text,
      (run_full_pipeline (okClient fun _ => "x") [] "t" .min10 sampleOrder).2.2.1
          = .ok final_text
      ∧ (run_full_pipeline (okClient fun _ => "x") [] "t" .min10 sampleOrder).2.2.2
          = lastN 20 ([] ++ [pyStrip (pyTake final_text 300)])
      ∧ (pyStrip (pyTake final_text 300)).length ≤ 300 :=
  ⟨by decide, C9_opening_append (fun _ => "x") [] "t" .min10 sampleOrder (by decide)⟩


/-! ### Claim C3: fail-fast termination of the event stream -/

/-- If the critique/enhancement loop fails, every event it yielded is a
critique or enhancement event and the last one is a `running` event. -/
theorem enhancementLoop_error (oracle : Oracle) (topic research : String) :
    ∀ (stages : List EnhancementStage) (i : Nat) (prev current : String)
      (e : PyError),
      (enhancementLoop oracle topic research i prev current stages).2.2 = .error e →
      (∀ ev ∈ (enhancementLoop oracle topic research i prev current stages).1,
          ev.ty = "critique" ∨ ev.ty = "enhancement")
      ∧ ∃ evs last,
          (enhancementLoop oracle topic research i prev current stages).1
            = evs ++ [last]
          ∧ (last.data = .running ∨ ∃ k, last.data = .runningEnh k) := by
  intro stages
  induction stages with
  | nil =>
    intro i prev current e h
    simp [enhancementLoop] at h
  | cons stage rest ih =>
    intro i prev current e h
    rcases hc : run_critique oracle topic current prev stage.name with ⟨cres, calls1⟩
    rcases cres with ec | critique
    · simp only [enhancementLoop, hc] at h ⊢
      refine ⟨?_, [], _, rfl, Or.inl rfl⟩
      intro ev hev
      simp only [List.mem_singleton] at hev
      subst hev
      exact Or.inl rfl
    · rcases he : run_enhancement_stage oracle i topic research critique current
        with ⟨eres, calls2⟩
      rcases eres with ee | newText
      · simp only [enhancementLoop, hc, he] at h ⊢
        refine ⟨?_, [_, _], _, rfl, Or.inr ⟨i, rfl⟩⟩
        intro ev hev
        simp only [List.mem_cons, List.not_mem_nil, or_false] at hev
        rcases hev with rfl | rfl | rfl
        · exact Or.inl rfl
        · exact Or.inl rfl
        · exact Or.inr rfl
      · simp only [enhancementLoop, hc, he] at h ⊢
        obtain ⟨hall, evs, last, hsplit, hlast⟩ := ih (i + 1) stage.name newText e h
        constructor
        · intro ev hev
          simp only [List.mem_cons] at hev
          rcases hev with rfl | rfl | rfl | rfl | hev
          · exact Or.inl rfl
          · exact Or.inl rfl
          · exact Or.inr rfl
          · exact Or.inr rfl
          · exact hall ev hev
        · refine ⟨⟨"Critique: " ++ prev ++ " → " ++ stage.name, "critique", .running⟩ ::
              ⟨"Critique: " ++ prev ++ " → " ++ stage.name, "critique", .doneText critique⟩ ::
              ⟨stage.name, "enhancement", .runningEnh i⟩ ::
              ⟨stage.name, "enhancement", .doneEnh i newText⟩ :: evs, last, ?_, hlast⟩
          rw [hsplit]
          simp

/-- C3: if any generation call of a run raises the fatal error, the event
stream terminates immediately: the differentiation store is untouched,
the terminal `done` event is never emitted, the stream ends in a
`running` event (no `done` for the in-flight phase, nothing after it);
and when it ends at the draft stage's `running` event, the stream is
exactly research(running), research(done), drafts(running) — no judge,
critique, or enhancement events. -/
theorem C3_fail_fast (oracle : Oracle) (openings : List String) (topic : String)
    (lk : LengthKey) (order : List (Fin DRAFT_VARIANTS.length)) (e : PyError)
    (h : (run_full_pipeline oracle openings topic lk order).2.2.1 = .error e) :
    (run_full_pipeline oracle openings topic lk order).2.2.2 = openings
    ∧ (∀ ev ∈ (run_full_pipeline oracle openings topic lk order).1, ev.ty ≠ "done")
    ∧ (∃ evs last,
        (run_full_pipeline oracle openings topic lk order).1 = evs ++ [last]
        ∧ (last.data = .running ∨ ∃ k, last.data = .runningEnh k))
    ∧ ((run_full_pipeline oracle openings topic lk order).1.getLast?
          = some ⟨"Stage 1: Parallel Drafts", "drafts", .running⟩ →
        ∃ research,
          (run_full_pipeline oracle openings topic lk order).1
            = [⟨"Stage 0: Research Gathering", "research", .running⟩,
               ⟨"Stage 0: Research Gathering", "research", .doneText research⟩,
               ⟨"Stage 1: Parallel Drafts", "drafts", .running⟩]) := by
  rcases hr : run_research oracle lk topic with ⟨rres, calls0⟩
  rcases rres with er | research
  · have hpipe : run_full_pipeline oracle openings topic lk order
        = ([⟨"Stage 0: Research Gathering", "research", .running⟩],
           calls0, .error er, openings) := by
      simp only [run_full_pipeline, hr]
    rw [hpipe]
    refine ⟨rfl, ?_, ⟨[], _, rfl, Or.inl rfl⟩, ?_⟩
    · intro ev hev
      simp only [List.mem_singleton] at hev
      subst hev
      decide
    · intro hlast
      simp at hlast
  · rcases hd : run_parallel_drafts oracle openings lk topic research order
      with ⟨dres, calls1⟩
    rcases dres with ed | results
    · have hpipe : run_full_pipeline oracle openings topic lk order
          = ([⟨"Stage 0: Research Gathering", "research", .running⟩,
              ⟨"Stage 0: Research Gathering", "research", .doneText research⟩,
              ⟨"Stage 1: Parallel Drafts", "drafts", .running⟩],
             calls0 ++ calls1, .error ed, openings) := by
        simp only [run_full_pipeline, hr, hd]
      rw [hpipe]
      refine ⟨rfl, ?_, ⟨[_, _], _, rfl, Or.inl rfl⟩, fun _ => ⟨research, rfl⟩⟩
      intro ev hev
      simp only [List.mem_cons, List.not_mem_nil, or_false] at hev
      rcases hev with rfl | rfl | rfl <;> simp
    · rcases hm : results.mapM id with _ | drafts
      · have hpipe : run_full_pipeline oracle openings topic lk order
            = ([⟨"Stage 0: Research Gathering", "research", .running⟩,
                ⟨"Stage 0: Research Gathering", "research", .doneText research⟩,
                ⟨"Stage 1: Parallel Drafts", "drafts", .running⟩],
               calls0 ++ calls1, .error .typeError, openings) := by
          simp only [run_full_pipeline, hr, hd, hm]
        rw [hpipe]
        refine ⟨rfl, ?_, ⟨[_, _], _, rfl, Or.inl rfl⟩, fun _ => ⟨research, rfl⟩⟩
        intro ev hev
        simp only [List.mem_cons, List.not_mem_nil, or_false] at hev
        rcases hev with rfl | rfl | rfl <;> simp
      · rcases hj : run_judge oracle topic drafts with ⟨jres, calls2⟩
        rcases jres with ej | verdict
        · have hpipe : run_full_pipeline oracle openings topic lk order
              = ([⟨"Stage 0: Research Gathering", "research", .running⟩,
                  ⟨"Stage 0: Research Gathering", "research", .doneText research⟩,
                  ⟨"Stage 1: Parallel Drafts", "drafts", .running⟩,
                  ⟨"Stage 1: Parallel Drafts", "drafts", .doneDrafts drafts⟩,
                  ⟨"Judge: Select Best Draft", "judge", .running⟩],
                 calls0 ++ calls1 ++ calls2, .error ej, openings) := by
            simp only [run_full_pipeline, hr, hd, hm, hj]
          rw [hpipe]
          refine ⟨rfl, ?_, ⟨[_, _, _, _], _, rfl, Or.inl rfl⟩, ?_⟩
          · intro ev hev
            simp only [List.mem_cons, List.not_mem_nil, or_false] at hev
            rcases hev with rfl | rfl | rfl | rfl | rfl <;> simp
          · intro hlast
            simp at hlast
        · rcases hl : enhancementLoop oracle topic research 0
              "Draft Selection (Judge)" verdict.winner_text ENHANCEMENT_STAGES
            with ⟨loopEvents, loopCalls, loopRes⟩
          rcases loopRes with el | finalText
          · have hpipe : run_full_pipeline oracle openings topic lk order
                = ([⟨"Stage 0: Research Gathering", "research", .running⟩,
                    ⟨"Stage 0: Research Gathering", "research", .doneText research⟩,
                    ⟨"Stage 1: Parallel Drafts", "drafts", .running⟩,
                    ⟨"Stage 1: Parallel Drafts", "drafts", .doneDrafts drafts⟩,
                    ⟨"Judge: Select Best Draft", "judge", .running⟩,
                    ⟨"Judge: Select Best Draft", "judge", .doneJudge verdict⟩]
                     ++ loopEvents,
                   calls0 ++ calls1 ++ calls2 ++ loopCalls, .error el, openings) := by
              simp only [run_full_pipeline, hr, hd, hm, hj, hl]
            obtain ⟨hall, evs, last, hsplit, hlastd⟩ :=
              enhancementLoop_error oracle topic research ENHANCEMENT_STAGES 0
                "Draft Selection (Judge)" verdict.winner_text el (by rw [hl])
            rw [hl] at hall hsplit
            dsimp only [] at hall hsplit
            rw [hpipe]
            refine ⟨rfl, ?_, ?_, ?_⟩
            · intro ev hev
              rcases List.mem_append.mp hev with hev | hev
              · simp only [List.mem_cons, List.not_mem_nil, or_false] at hev
                rcases hev with rfl | rfl | rfl | rfl | rfl | rfl <;> simp
              · rcases hall ev hev with ht | ht <;> rw [ht] <;> decide
            · refine ⟨[⟨"Stage 0: Research Gathering", "research", .running⟩,
                  ⟨"Stage 0: Research Gathering", "research", .doneText research⟩,
                  ⟨"Stage 1: Parallel Drafts", "drafts", .running⟩,
                  ⟨"Stage 1: Parallel Drafts", "drafts", .doneDrafts drafts⟩,
                  ⟨"Judge: Select Best Draft", "judge", .running⟩,
                  ⟨"Judge: Select Best Draft", "judge", .doneJudge verdict⟩]
                  ++ evs, last, ?_, hlastd⟩
              rw [hsplit]
              simp
            · intro hlast
              rw [hsplit] at hlast
              rw [show ([⟨"Stage 0: Research Gathering", "research", .running⟩,
                  ⟨"Stage 0: Research Gathering", "research", .doneText research⟩,
                  ⟨"Stage 1: Parallel Drafts", "drafts", .running⟩,
                  ⟨"Stage 1: Parallel Drafts", "drafts", .doneDrafts drafts⟩,
                  ⟨"Judge: Select Best Draft", "judge", .running⟩,
                  ⟨"Judge: Select Best Draft", "judge", .doneJudge verdict⟩]
                   ++ (evs ++ [last]))
                  = ([⟨"Stage 0: Research Gathering", "research", .running⟩,
                  ⟨"Stage 0: Research Gathering", "research", .doneText research⟩,
                  ⟨"Stage 1: Parallel Drafts", "drafts", .running⟩,
                  ⟨"Stage 1: Parallel Drafts", "drafts", .doneDrafts drafts⟩,
                  ⟨"Judge: Select Best Draft", "judge", .running⟩,
                  ⟨"Judge: Select Best Draft", "judge", .doneJudge verdict⟩]
                   ++ evs) ++ [last] by simp] at hlast
              rw [List.getLast?_concat] at hlast
              have hlmem : last ∈ loopEvents := by
                rw [hsplit]
                exact List.mem_append_right _ (by simp)
              have := hall last hlmem
              have hinj := Option.some.inj hlast
              rw [hinj] at this
              rcases this with ht | ht <;> simp at ht
          · exfalso
            have : (run_full_pipeline oracle openings topic lk order).2.2.1
                = .ok finalText := by
              simp only [run_full_pipeline, hr, hd, hm, hj, hl]
            rw [this] at h
            cases h

/-- The stub client of the C3 witness: it fails every OpenAI call
(variant B of the draft stage) and answers every Anthropic call. -/
def failingClient : Oracle :=
  fun c => if c.provider = "openai" then .error .openaiRateLimit else .ok "x"

/-- Witness for C3: the draft stage's stub client fails on variant B. -/
theorem C3_fail_fast_witness :
    (run_full_pipeline failingClient [] "t" .min10 sampleOrder).2.2.1
        = .error (.runtimeError "Rate limited by OpenAI. Wait a moment and retry.")
    ∧ ((run_full_pipeline failingClient [] "t" .min10 sampleOrder).2.2.2 = []
      ∧ (∀ ev ∈ (run_full_pipeline failingClient [] "t" .min10 sampleOrder).1,
          ev.ty ≠ "done")
      ∧ (∃ evs last,
          (run_full_pipeline failingClient [] "t" .min10 sampleOrder).1 = evs ++ [last]
          ∧ (last.data = .running ∨ ∃ k, last.data = .runningEnh k))
      ∧ ((run_full_pipeline failingClient [] "t" .min10 sampleOrder).1.getLast?
            = some ⟨"Stage 1: Parallel Drafts", "drafts", .running⟩ →
          ∃ research,
            (run_full_pipeline failingClient [] "t" .min10 sampleOrder).1
              = [⟨"Stage 0: Research Gathering", "research", .running⟩,
                 ⟨"Stage 0: Research Gathering", "research", .doneText research⟩,
                 ⟨"Stage 1: Parallel Drafts", "drafts", .running⟩])) :=
  ⟨rfl, C3_fail_fast failingClient [] "t" .min10 sampleOrder
    (.runtimeError "Rate limited by OpenAI. Wait a moment and retry.") rfl⟩

end DailySpeech
